import Mathlib

/-!
Shallow embedding of the DailyBoxOffice pipeline
(`bmsdaily7.py`, `bmsdaily9.py`, `combine_dailyshards.py`).

Python dicts are modelled as insertion-ordered association lists
(`List (K × V)`), Python sets as insertion-ordered duplicate-free
lists, Python floats as exact rationals with explicit half-even
rounding where the source calls `round`.  Network fetch outcomes are
abstracted as a boolean oracle parameter (venue, attempt index) for the
retry-controller model.  Definitions come first, then the verification
layer.
-/

set_option maxHeartbeats 1000000
set_option linter.unusedSectionVars false
set_option linter.unusedVariables false

namespace DBO

/-! ## Definitions -/

section AMapDefs

variable {K V : Type} [DecidableEq K]

/-- Keys of an association list, in insertion order (Python `dict` key view). -/
def mapKeys (m : List (K × V)) : List K := m.map (fun kv => kv.1)

/-- Python `d.get(k)` / `k in d`: first-match lookup. -/
def mapLookup : List (K × V) → K → Option V
  | [], _ => none
  | kv :: rest, k => if kv.1 = k then some kv.2 else mapLookup rest k

/-- Replacement of the entry at key `k` by `(k, v)`, leaving others alone. -/
def updEntry (k : K) (v : V) (kv : K × V) : K × V :=
  if kv.1 = k then (k, v) else kv

/-- Python `d[k] = v`: replace the value in place when the key is present
(keeping its position), append a fresh entry otherwise. -/
def mapInsert (m : List (K × V)) (k : K) (v : V) : List (K × V) :=
  if (mapLookup m k).isSome then m.map (updEntry k v) else m ++ [(k, v)]

end AMapDefs

section DedupeDefs

variable {α K : Type} [DecidableEq K]

/-- Seen-set dedupe loop shared by bmsdaily9.py lines 63-72 and
combine_dailyshards.py lines 78-96: keep the first record per key, in input
order, counting the skipped duplicates. -/
def dedupeGo (key : α → K) : List K → List α → List α × ℕ
  | _, [] => ([], 0)
  | seen, r :: rest =>
      if key r ∈ seen then
        ((dedupeGo key seen rest).1, (dedupeGo key seen rest).2 + 1)
      else
        (r :: (dedupeGo key (key r :: seen) rest).1,
          (dedupeGo key (key r :: seen) rest).2)

end DedupeDefs

/-! ### Half-even rounding (Python `round(x, n)` on exact rationals) -/

/-- Python `round` to an integer: nearest, ties to even. -/
def roundHalfEven (q : ℚ) : ℤ :=
  let f : ℤ := ⌊q⌋
  let frac : ℚ := q - (f : ℚ)
  if frac < 1/2 then f
  else if 1/2 < frac then f + 1
  else if f % 2 = 0 then f else f + 1

/-- Python `round(x, n)` for `n` decimal places. -/
def roundTo (n : ℕ) (q : ℚ) : ℚ :=
  ((roundHalfEven (q * (10 : ℚ) ^ n) : ℚ)) / (10 : ℚ) ^ n

/-! ### Python string helpers (ASCII model of `strip`, `lower`, `upper`,
`title`, used by the combiner's normalization) -/

/-- Characters removed by Python `str.strip()` (ASCII whitespace). -/
def isPySpace (c : Char) : Bool :=
  c == ' ' || c == '\t' || c == '\n' || c == '\x0d' || c == '\x0b' || c == '\x0c'

def pyStrip (s : String) : String :=
  String.mk (((s.data.dropWhile isPySpace).reverse.dropWhile isPySpace).reverse)

def pyLower (s : String) : String := String.mk (s.data.map Char.toLower)

def pyUpper (s : String) : String := String.mk (s.data.map Char.toUpper)

/-- Python `str.title()` on ASCII: uppercase each letter that follows a
non-letter, lowercase every other letter. -/
def titleMap : Bool → List Char → List Char
  | _, [] => []
  | prevAlpha, c :: rest =>
      if c.isAlpha then
        (if prevAlpha then c.toLower else c.toUpper) :: titleMap true rest
      else c :: titleMap false rest

def pyTitle (s : String) : String := String.mk (titleMap false s.data)

/-- Numeric value of a digit run (the strings fed to it are all-digit). -/
def digitsToNat (ds : List Char) : ℕ :=
  ds.foldl (fun n c => n * 10 + (c.toNat - 48)) 0

/-! ### Canonical show record: the dict built by `parse_payload` in
bmsdaily7.py, after the run loop adds `minutes_left`, `city`, `state`,
`date` and `source`; bmsdaily9.py and the snapshots read by the merge have
the same shape.  Every record carries the full canonical field set. -/

structure ShowRecord where
  movie : String
  venue : String
  address : String
  language : String
  dimension : String
  chain : String
  time : String
  audi : String
  session_id : String
  totalSeats : ℤ
  available : ℤ
  sold : ℤ
  gross : ℚ
  minutes_left : ℚ
  city : String
  state : String
  date : String
  source : String
  deriving DecidableEq

/-- Identity key of a show (bmsdaily7.py `show_key`, line 193, and the
dedupe keys of bmsdaily9.py line 67 / combine_dailyshards.py lines 84-89). -/
abbrev ShowKey := String × String × String × String

namespace Bms7

/-- bmsdaily7.py line 22. -/
def CUTOFF_MINUTES : ℚ := 200

/-- bmsdaily7.py line 238. -/
def MAX_RETRIES : ℕ := 5

/-- bmsdaily7.py line 193: `(r["venue"], r["time"], r["session_id"], r["audi"])`. -/
def show_key (r : ShowRecord) : ShowKey := (r.venue, r.time, r.session_id, r.audi)

/-- bmsdaily7.py line 49: `round((sold / total) * 100, 2) if total else 0.0`. -/
def calc_occupancy (sold total : ℤ) : ℚ :=
  if total ≠ 0 then roundTo 2 (((sold : ℚ) / (total : ℚ)) * 100) else 0

/-! #### Vendor payload shape consumed by `parse_payload` -/

structure Category where
  MaxSeats : ℤ
  SeatsAvail : ℤ
  CurPrice : ℚ
  deriving DecidableEq

structure ShowTimeJ where
  ShowDateCode : String
  ShowTime : String
  Attributes : String
  SessionId : String
  Categories : List Category
  deriving DecidableEq

structure ChildEventJ where
  EventDimension : String
  EventLanguage : String
  ShowTimes : List ShowTimeJ
  deriving DecidableEq

structure EventJ where
  EventTitle : String
  ChildEvents : List ChildEventJ
  deriving DecidableEq

structure VenueJ where
  VenueName : String
  VenueAdd : String
  VenueCompName : String
  deriving DecidableEq

structure ShowDetailJ where
  Venues : VenueJ
  Event : List EventJ
  deriving DecidableEq

structure PayloadJ where
  ShowDetails : List ShowDetailJ
  deriving DecidableEq

/-- Inner seat-tier loop of `parse_payload` (bmsdaily7.py lines 163-171):
the running `(total, avail, sold, gross)` quadruple. -/
def tierFold (cats : List Category) : ℤ × ℤ × ℤ × ℚ :=
  cats.foldl
    (fun acc c =>
      (acc.1 + c.MaxSeats, acc.2.1 + c.SeatsAvail,
        acc.2.2.1 + (c.MaxSeats - c.SeatsAvail),
        acc.2.2.2 + ((c.MaxSeats - c.SeatsAvail : ℤ) : ℚ) * c.CurPrice))
    (0, 0, 0, 0)

/-- The dict appended at bmsdaily7.py lines 173-187.  The run-level fields
(`minutes_left`, `city`, `state`, `date`, `source`) are added later by the
collection loop and are initialized neutrally here. -/
def mkRecord (venueJ : VenueJ) (title dim lang : String) (sh : ShowTimeJ) :
    ShowRecord :=
  { movie := title, venue := venueJ.VenueName, address := venueJ.VenueAdd,
    language := lang, dimension := dim, chain := venueJ.VenueCompName,
    time := sh.ShowTime, audi := sh.Attributes, session_id := sh.SessionId,
    totalSeats := (tierFold sh.Categories).1,
    available := (tierFold sh.Categories).2.1,
    sold := (tierFold sh.Categories).2.2.1,
    gross := roundTo 2 (tierFold sh.Categories).2.2.2,
    minutes_left := 0, city := "", state := "", date := "", source := "" }

/-- bmsdaily7.py lines 141-188 (`parse_payload`): venue info and events come
from `ShowDetails[0]`, shows of other dates are skipped. -/
def parse_payload (dateCode : String) (data : PayloadJ) : List ShowRecord :=
  match data.ShowDetails with
  | [] => []
  | sd0 :: _ =>
      sd0.Event.flatMap (fun ev =>
        ev.ChildEvents.flatMap (fun ch =>
          (ch.ShowTimes.filter (fun sh => decide (sh.ShowDateCode = dateCode))).map
            (mkRecord sd0.Venues ev.EventTitle ch.EventDimension ch.EventLanguage)))

/-- Model of `datetime.strptime(show_time, "%I:%M %p")`: 1-2 digit hour in
1..12, colon, 1-2 digit minute below 60, whitespace, then AM/PM
(case-insensitive), nothing after.  Returns minutes after midnight. -/
def parse12h (s : String) : Option ℕ :=
  let cs := s.data
  let hd := cs.takeWhile Char.isDigit
  let rest := cs.dropWhile Char.isDigit
  if hd.length = 0 ∨ 2 < hd.length then none
  else
    match rest with
    | ':' :: rest2 =>
        let md := rest2.takeWhile Char.isDigit
        let rest3 := rest2.dropWhile Char.isDigit
        if md.length = 0 ∨ 2 < md.length then none
        else
          let rest4 := rest3.dropWhile (fun c => c == ' ')
          if rest3.length = rest4.length then none
          else
            match rest4 with
            | [c1, c2] =>
                if (c2 = 'M' ∨ c2 = 'm') ∧
                    (c1 = 'A' ∨ c1 = 'a' ∨ c1 = 'P' ∨ c1 = 'p') ∧
                    1 ≤ digitsToNat hd ∧ digitsToNat hd ≤ 12 ∧
                    digitsToNat md ≤ 59 then
                  some ((if c1 = 'P' ∨ c1 = 'p' then digitsToNat hd % 12 + 12
                         else digitsToNat hd % 12) * 60 + digitsToNat md)
                else none
            | _ => none
    | _ => none

/-- bmsdaily7.py lines 129-136 (`minutes_left`): `nowMin` is the current IST
time of day in minutes; any parse failure yields the 9999 sentinel. -/
def minutes_left (nowMin : ℚ) (show_time : String) : ℚ :=
  match parse12h show_time with
  | some t => (t : ℚ) - nowMin
  | none => 9999

/-- Per-venue record collection (bmsdaily7.py lines 214-224, repeated at
lines 249-259): a parsed record is kept only when its show starts within
`CUTOFF_MINUTES`, and is then enriched with the run metadata. -/
def collectRows (nowMin : ℚ) (city state dateCode : String)
    (rows : List ShowRecord) : List ShowRecord :=
  rows.foldr
    (fun r acc =>
      if minutes_left nowMin r.time ≤ CUTOFF_MINUTES then
        { r with minutes_left := roundTo 1 (minutes_left nowMin r.time),
                 city := city, state := state, date := dateCode,
                 source := "BMS" } :: acc
      else acc)
    []

/-! #### Snapshot merge engine (bmsdaily7.py lines 279-299) -/

/-- Python `old_map[key].update(r)` (bmsdaily7.py line 290): every canonical
field is present in the new record `r`, so the shallow dict update overwrites
each field of the old entry with the corresponding field of `r`. -/
def dictUpdate (old r : ShowRecord) : ShowRecord :=
  { movie := r.movie, venue := r.venue, address := r.address,
    language := r.language, dimension := r.dimension, chain := r.chain,
    time := r.time, audi := r.audi, session_id := r.session_id,
    totalSeats := r.totalSeats, available := r.available, sold := r.sold,
    gross := r.gross, minutes_left := r.minutes_left, city := r.city,
    state := r.state, date := r.date, source := r.source }

/-- bmsdaily7.py line 284: `old_map = {show_key(r): r for r in old_rows}`,
written as the left fold of insertions Python performs. -/
def insRows (m : List (ShowKey × ShowRecord)) (rows : List ShowRecord) :
    List (ShowKey × ShowRecord) :=
  rows.foldl (fun acc r => mapInsert acc (show_key r) r) m

def mapFromRows (rows : List ShowRecord) : List (ShowKey × ShowRecord) :=
  insRows [] rows

/-- Body of the first merge loop, bmsdaily7.py lines 287-293.  The state is
the pair `(old_map, new_map)`; `old_map[key].update(r)` mutates the shared
entry, so both maps receive the updated record. -/
def mergeStep (acc : List (ShowKey × ShowRecord) × List (ShowKey × ShowRecord))
    (r : ShowRecord) :
    List (ShowKey × ShowRecord) × List (ShowKey × ShowRecord) :=
  match mapLookup acc.1 (show_key r) with
  | some v =>
      let v2 := dictUpdate v r
      (mapInsert acc.1 (show_key r) v2, mapInsert acc.2 (show_key r) v2)
  | none => (acc.1, mapInsert acc.2 (show_key r) r)

/-- Retention loop, bmsdaily7.py lines 295-297: every old entry whose key was
never re-observed is copied into `new_map`. -/
def retainOld (newM oldM : List (ShowKey × ShowRecord)) :
    List (ShowKey × ShowRecord) :=
  oldM.foldl
    (fun nm kv => if (mapLookup nm kv.1).isSome then nm else mapInsert nm kv.1 kv.2)
    newM

/-- The merge engine of bmsdaily7.py lines 279-299:
`merge old_rows all_rows = list(new_map.values())`. -/
def merge (old_rows all_rows : List ShowRecord) : List ShowRecord :=
  let oldM := mapFromRows old_rows
  let folded := all_rows.foldl mergeStep (oldM, [])
  (retainOld folded.2 folded.1).map (fun kv => kv.2)

/-! #### Analysis definitions for the merge engine -/

/-- Effect of the first merge loop on `old_map` alone. -/
def updOld (o : List (ShowKey × ShowRecord)) (rs : List ShowRecord) :
    List (ShowKey × ShowRecord) :=
  rs.foldl (fun acc r => acc.map (updEntry (show_key r) r)) o

/-- Cumulative effect of a run of new records on one map entry. -/
def entryUpd (rs : List ShowRecord) (kv : ShowKey × ShowRecord) :
    ShowKey × ShowRecord :=
  rs.foldl (fun kv2 r => updEntry (show_key r) r kv2) kv

/-- Every entry of the map records its own identity key. -/
def KeyCoherent (m : List (ShowKey × ShowRecord)) : Prop :=
  ∀ kv ∈ m, show_key kv.2 = kv.1

/-- Closed form of the merged key-to-record map: the new records first (one
entry per distinct key, last observation winning), then the old entries whose
key no new record carries. -/
def mergeMap (old_rows all_rows : List ShowRecord) : List (ShowKey × ShowRecord) :=
  insRows [] all_rows ++
    ((mapFromRows old_rows).map (entryUpd all_rows)).filter
      (fun kv => decide (kv.1 ∉ mapKeys (insRows [] all_rows)))

/-! #### Retry controller (bmsdaily7.py lines 210-271).  The network outcome
of the `k`-th fetch attempt for venue `v` is abstracted as `succeeds v k`;
control flow, bounds and bookkeeping are the source's. -/

/-- First pass (bmsdaily7.py lines 210-230): venues whose attempt 0 fails
enter the retry queue, in list order. -/
def firstPassFailures {V : Type} (succeeds : V → ℕ → Bool) (venues : List V) :
    List V :=
  venues.filter (fun v => !(succeeds v 0))

/-- Retry loop (bmsdaily7.py lines 236-268): `fuel` counts the rounds still
allowed by `retry_round <= MAX_RETRIES`; each executed round attempts every
pending venue once and carries the failures over.  A venue pending in round
`round` has failed attempts `0 .. round-1`, so this round gives it attempt
number `round`.  Returns the final pending queue and the number of retry
rounds actually executed. -/
def retryLoop {V : Type} (succeeds : V → ℕ → Bool) :
    ℕ → ℕ → List V → List V × ℕ
  | 0, _, pending => (pending, 0)
  | fuel + 1, round, pending =>
      if pending.isEmpty then (pending, 0)
      else
        ((retryLoop succeeds fuel (round + 1)
            (pending.filter (fun v => !(succeeds v round)))).1,
          (retryLoop succeeds fuel (round + 1)
            (pending.filter (fun v => !(succeeds v round)))).2 + 1)

/-- Whole failure-handling phase: the permanent-failure report (final
pending queue, bmsdaily7.py line 270-271) and the retry rounds run. -/
def runRetryPhase {V : Type} (succeeds : V → ℕ → Bool) (venues : List V) :
    List V × ℕ :=
  retryLoop succeeds MAX_RETRIES 1 (firstPassFailures succeeds venues)

/-- Fetch attempts the retry loop makes for venue `v`: every executed round
attempts each pending venue exactly once. -/
def retryAttempts {V : Type} [DecidableEq V] (succeeds : V → ℕ → Bool) (v : V) :
    ℕ → ℕ → List V → ℕ
  | 0, _, _ => 0
  | fuel + 1, round, pending =>
      if pending.isEmpty then 0
      else pending.count v +
        retryAttempts succeeds v fuel (round + 1)
          (pending.filter (fun w => !(succeeds w round)))

/-- Total fetch attempts for `v` in one run: one first-pass attempt per
occurrence in the venue list, plus the retry rounds. -/
def totalAttempts {V : Type} [DecidableEq V] (succeeds : V → ℕ → Bool)
    (venues : List V) (v : V) : ℕ :=
  venues.count v +
    retryAttempts succeeds v MAX_RETRIES 1 (firstPassFailures succeeds venues)

end Bms7

namespace Bms9

/-- bmsdaily9.py line 67: the dedupe identity key. -/
def key9 (r : ShowRecord) : ShowKey := (r.venue, r.time, r.session_id, r.audi)

/-- bmsdaily9.py lines 63-72 (`dedupe`); the loop keeps no duplicate count,
hence the first projection of the shared seen-set loop. -/
def dedupe (rows : List ShowRecord) : List ShowRecord :=
  (dedupeGo key9 [] rows).1

/-- bmsdaily9.py lines 74-75 (`norm`). -/
def norm (s : String) : String := if s = "" then "UNKNOWN" else pyStrip s

/-- The `showTime` value in a District session: JSON null, a number, or a
string (bmsdaily9.py `parse_showtime` docstring). -/
inductive TimeVal where
  | null : TimeVal
  | num : ℤ → TimeVal
  | str : String → TimeVal
  deriving DecidableEq

/-- Zero-padded two-digit rendering used by `strftime`. -/
def pad2 (n : ℕ) : String := if n < 10 then "0" ++ toString n else toString n

/-- `strftime("%I:%M %p")` for a time of day given in minutes. -/
def fmt12h (m : ℕ) : String :=
  let h := m / 60 % 24
  let mi := m % 60
  pad2 (if h % 12 = 0 then 12 else h % 12) ++ ":" ++ pad2 mi ++
    (if h < 12 then " AM" else " PM")

/-- Epoch milliseconds to IST (UTC+5:30) minutes of day
(`datetime.fromtimestamp(ts, tz=pytz.UTC).astimezone(IST)`). -/
def epochToISTMinutes (ms : ℤ) : ℕ :=
  ((((ms.fdiv 1000) + 19800).fdiv 60) % 1440).toNat

def isLeap (y : ℕ) : Bool := decide ((y % 4 = 0 ∧ y % 100 ≠ 0) ∨ y % 400 = 0)

def daysInMonth (y mo : ℕ) : ℕ :=
  if mo = 2 then (if isLeap y then 29 else 28)
  else if mo = 4 ∨ mo = 6 ∨ mo = 9 ∨ mo = 11 then 30 else 31

/-- Model of `datetime.strptime(s, "%Y-%m-%dT%H:%M")`: four-digit year,
1-2 digit month/day/hour/minute with calendar validation, nothing after.
Returns the (hour, minute) pair. -/
def parseISO (s : String) : Option (ℕ × ℕ) :=
  let cs := s.data
  let y := cs.takeWhile Char.isDigit
  let r1 := cs.dropWhile Char.isDigit
  if y.length ≠ 4 then none
  else
    match r1 with
    | '-' :: r2 =>
        let mo := r2.takeWhile Char.isDigit
        let r3 := r2.dropWhile Char.isDigit
        if mo.length = 0 ∨ 2 < mo.length then none
        else
          match r3 with
          | '-' :: r4 =>
              let d := r4.takeWhile Char.isDigit
              let r5 := r4.dropWhile Char.isDigit
              if d.length = 0 ∨ 2 < d.length then none
              else
                match r5 with
                | 'T' :: r6 =>
                    let hh := r6.takeWhile Char.isDigit
                    let r7 := r6.dropWhile Char.isDigit
                    if hh.length = 0 ∨ 2 < hh.length then none
                    else
                      match r7 with
                      | ':' :: r8 =>
                          let mm := r8.takeWhile Char.isDigit
                          let r9 := r8.dropWhile Char.isDigit
                          if mm.length = 0 ∨ 2 < mm.length ∨ r9 ≠ [] then none
                          else
                            if 1 ≤ digitsToNat mo ∧ digitsToNat mo ≤ 12 ∧
                                1 ≤ digitsToNat d ∧
                                digitsToNat d ≤ daysInMonth (digitsToNat y) (digitsToNat mo) ∧
                                1 ≤ digitsToNat y ∧
                                digitsToNat hh ≤ 23 ∧ digitsToNat mm ≤ 59 then
                              some (digitsToNat hh, digitsToNat mm)
                            else none
                      | _ => none
                | _ => none
          | _ => none
    | _ => none

/-- Python `str(show_time).isdigit()` for the epoch-string case. -/
def isDigitStr (s : String) : Bool := !s.data.isEmpty && s.data.all Char.isDigit

/-- bmsdaily9.py lines 125-150 (`parse_showtime`): falsy input and any parse
failure produce the empty-string sentinel; otherwise the time is rendered in
IST as `"%I:%M %p"`. -/
def parse_showtime (v : TimeVal) : String :=
  match v with
  | .null => ""
  | .num n =>
      if n = 0 then ""
      else fmt12h (epochToISTMinutes n)
  | .str s =>
      if s = "" then ""
      else if isDigitStr s then fmt12h (epochToISTMinutes (digitsToNat s.data))
      else
        match parseISO s with
        | some hm => fmt12h ((hm.1 * 60 + hm.2 + 330) % 1440)
        | none => ""

/-! #### District payload shape consumed by `parse` -/

structure AreaJ where
  sTotal : ℤ
  sAvail : ℤ
  price : ℚ
  deriving DecidableEq

structure MovieJ where
  id : String
  name : String
  lang : String
  deriving DecidableEq

structure SessionJ where
  mid : String
  lang : String
  scrnFmt : String
  total : ℤ
  avail : ℤ
  showTime : TimeVal
  audi : String
  sid : String
  areas : List AreaJ
  deriving DecidableEq

/-- Python `norm(s.get("scrnFmt")).replace("-", " | ")`. -/
def pyReplaceDash (s : String) : String :=
  String.mk (s.data.flatMap (fun c => if c = '-' then (" | ").data else [c]))

/-- bmsdaily9.py lines 189-192: gross over seat areas. -/
def areasGross (areas : List AreaJ) : ℚ :=
  (areas.map (fun a => ((a.sTotal - a.sAvail : ℤ) : ℚ) * a.price)).sum

/-- Per-session body of `parse` (bmsdaily9.py lines 175-212): `none` when the
session's movie id is not in the movie map (the `continue`).  bmsdaily9
records carry no `chain`/`minutes_left`; those fields take neutral values. -/
def parseSession (city state venue_name venue_addr dateCode : String)
    (movies : List MovieJ) (s : SessionJ) : Option ShowRecord :=
  match movies.find? (fun m => decide (m.id = s.mid)) with
  | none => none
  | some movie =>
      some
        { movie := movie.name, city := city, state := state,
          venue := venue_name, address := venue_addr,
          time := parse_showtime s.showTime,
          audi := s.audi, session_id := s.sid,
          totalSeats := s.total, available := s.avail,
          sold := s.total - s.avail,
          gross := roundTo 2 (areasGross s.areas),
          language := norm (if s.lang = "" then movie.lang else s.lang),
          dimension := pyReplaceDash (norm s.scrnFmt),
          chain := "", minutes_left := 0,
          source := "District", date := dateCode }

/-- bmsdaily9.py `parse` restricted to one fetched venue: build the records
of its sessions, then dedupe (line 214). -/
def parse (city state venue_name venue_addr dateCode : String)
    (movies : List MovieJ) (sessions : List SessionJ) : List ShowRecord :=
  dedupe (sessions.filterMap
    (parseSession city state venue_name venue_addr dateCode movies))

end Bms9

namespace Combine

/-- A normalized combiner row (combine_dailyshards.py `normalize_row`):
the display city/state and the lower-cased grouping keys are distinct
projections of the same raw field, both carried on the row. -/
structure NRow where
  movie : String
  cityKey : String
  stateKey : String
  city : String
  state : String
  venue : String
  address : String
  time : String
  audi : String
  session_id : String
  source : String
  date : String
  language : String
  dimension : String
  totalSeats : ℤ
  available : ℤ
  sold : ℤ
  gross : ℚ
  deriving DecidableEq

/-- Python `x or default` on strings (empty string is falsy). -/
def orDefault (s d : String) : String := if s = "" then d else s

/-- combine_dailyshards.py lines 43-73 (`normalize_row`). -/
def normalize_row (dateCode : String) (r : ShowRecord) : NRow :=
  { movie := orDefault r.movie "Unknown",
    cityKey := pyLower (pyStrip (orDefault r.city "Unknown")),
    stateKey := pyLower (pyStrip (orDefault r.state "Unknown")),
    city := pyTitle (pyStrip (orDefault r.city "Unknown")),
    state := pyTitle (pyStrip (orDefault r.state "Unknown")),
    venue := orDefault r.venue "Unknown",
    address := r.address,
    time := r.time,
    audi := r.audi,
    session_id := r.session_id,
    source := orDefault r.source "Unknown",
    date := orDefault r.date dateCode,
    language := pyUpper (orDefault r.language "UNKNOWN"),
    dimension := pyUpper (orDefault r.dimension "UNKNOWN"),
    totalSeats := r.totalSeats, available := r.available, sold := r.sold,
    gross := r.gross }

/-- combine_dailyshards.py lines 84-89: the dedupe identity key. -/
def rowKey (r : NRow) : ShowKey := (r.venue, r.time, r.session_id, r.audi)

/-- combine_dailyshards.py lines 78-96 (`dedupe`): `(kept rows, dupes)`. -/
def dedupe (rows : List NRow) : List NRow × ℕ := dedupeGo rowKey [] rows

/-- combine_dailyshards.py line 37. -/
def calc_occupancy (sold total : ℤ) : ℚ :=
  if total ≠ 0 then roundTo 2 (((sold : ℚ) / (total : ℚ)) * 100) else 0

/-- combine_dailyshards.py line 159: the classification occupancy
(`(sold / total * 100) if total else 0`, unrounded). -/
def occOf (sold total : ℤ) : ℚ :=
  if total ≠ 0 then ((sold : ℚ) / (total : ℚ)) * 100 else 0

/-! #### Summary accumulators (dicts of running totals and sets) -/

structure DetailAcc where
  venues : List String
  shows : ℕ
  gross : ℚ
  sold : ℤ
  totalSeats : ℤ
  fastfilling : ℕ
  housefull : ℕ
  deriving DecidableEq

structure CityAcc where
  city : String
  state : String
  d : DetailAcc
  deriving DecidableEq

structure LabelAcc where
  label : String
  d : DetailAcc
  deriving DecidableEq

structure MovieAcc where
  shows : ℕ
  gross : ℚ
  sold : ℤ
  totalSeats : ℤ
  venues : List String
  cities : List String
  fastfilling : ℕ
  housefull : ℕ
  cityDetails : List ((String × String) × CityAcc)
  langDetails : List (String × LabelAcc)
  fmtDetails : List (String × LabelAcc)
  deriving DecidableEq

def initDetailAcc : DetailAcc :=
  { venues := [], shows := 0, gross := 0, sold := 0, totalSeats := 0,
    fastfilling := 0, housefull := 0 }

def initMovieAcc : MovieAcc :=
  { shows := 0, gross := 0, sold := 0, totalSeats := 0, venues := [],
    cities := [], fastfilling := 0, housefull := 0, cityDetails := [],
    langDetails := [], fmtDetails := [] }

/-- Python `set.add`, with insertion order kept (only the cardinality is
ever read, and the list stays duplicate-free by construction). -/
def setAdd (l : List String) (x : String) : List String :=
  if x ∈ l then l else l ++ [x]

/-- The bucket update block repeated at city, language and format level
(combine_dailyshards.py lines 204-214, 229-239, 254-264): accumulate, then
the two-threshold status rule. -/
def updDetail (d : DetailAcc) (venue : String) (gross : ℚ) (sold total : ℤ)
    (occ : ℚ) : DetailAcc :=
  if occ ≥ 98 then
    { d with venues := setAdd d.venues venue, shows := d.shows + 1,
             gross := d.gross + gross, sold := d.sold + sold,
             totalSeats := d.totalSeats + total, housefull := d.housefull + 1 }
  else if occ ≥ 50 then
    { d with venues := setAdd d.venues venue, shows := d.shows + 1,
             gross := d.gross + gross, sold := d.sold + sold,
             totalSeats := d.totalSeats + total,
             fastfilling := d.fastfilling + 1 }
  else
    { d with venues := setAdd d.venues venue, shows := d.shows + 1,
             gross := d.gross + gross, sold := d.sold + sold,
             totalSeats := d.totalSeats + total }

/-- Movie-level counter update (combine_dailyshards.py lines 176-187). -/
def updMovieCounters (m : MovieAcc) (r : NRow) (occ : ℚ) : MovieAcc :=
  if occ ≥ 98 then
    { m with shows := m.shows + 1, gross := m.gross + r.gross,
             sold := m.sold + r.sold, totalSeats := m.totalSeats + r.totalSeats,
             venues := setAdd m.venues r.venue,
             cities := setAdd m.cities r.cityKey,
             housefull := m.housefull + 1 }
  else if occ ≥ 50 then
    { m with shows := m.shows + 1, gross := m.gross + r.gross,
             sold := m.sold + r.sold, totalSeats := m.totalSeats + r.totalSeats,
             venues := setAdd m.venues r.venue,
             cities := setAdd m.cities r.cityKey,
             fastfilling := m.fastfilling + 1 }
  else
    { m with shows := m.shows + 1, gross := m.gross + r.gross,
             sold := m.sold + r.sold, totalSeats := m.totalSeats + r.totalSeats,
             venues := setAdd m.venues r.venue,
             cities := setAdd m.cities r.cityKey }

/-- Whole summary-loop body for one record
(combine_dailyshards.py lines 146-264). -/
def summarizeStep (s : List (String × MovieAcc)) (r : NRow) :
    List (String × MovieAcc) :=
  let occ := occOf r.sold r.totalSeats
  let m0 := (mapLookup s r.movie).getD initMovieAcc
  let m1 := updMovieCounters m0 r occ
  let cd0 := (mapLookup m1.cityDetails (r.cityKey, r.stateKey)).getD
    { city := r.city, state := r.state, d := initDetailAcc }
  let m2 := { m1 with cityDetails := (mapInsert m1.cityDetails (r.cityKey, r.stateKey)
    ({ cd0 with d := updDetail cd0.d r.venue r.gross r.sold r.totalSeats occ })) }
  let l0 := (mapLookup m2.langDetails r.language).getD
    { label := r.language, d := initDetailAcc }
  let m3 := { m2 with langDetails := (mapInsert m2.langDetails r.language
    ({ l0 with d := updDetail l0.d r.venue r.gross r.sold r.totalSeats occ })) }
  let f0 := (mapLookup m3.fmtDetails r.dimension).getD
    { label := r.dimension, d := initDetailAcc }
  let m4 := { m3 with fmtDetails := (mapInsert m3.fmtDetails r.dimension
    ({ f0 with d := updDetail f0.d r.venue r.gross r.sold r.totalSeats occ })) }
  mapInsert s r.movie m4

/-- combine_dailyshards.py summary loop (lines 144-264). -/
def buildSummary (rows : List NRow) : List (String × MovieAcc) :=
  rows.foldl summarizeStep []

/-! #### Finalized (count-only) summary shape, lines 269-325 -/

structure CityOut where
  city : String
  state : String
  venues : ℕ
  shows : ℕ
  gross : ℚ
  sold : ℤ
  totalSeats : ℤ
  fastfilling : ℕ
  housefull : ℕ
  occupancy : ℚ
  deriving DecidableEq

structure LabelOut where
  label : String
  venues : ℕ
  shows : ℕ
  gross : ℚ
  sold : ℤ
  totalSeats : ℤ
  fastfilling : ℕ
  housefull : ℕ
  occupancy : ℚ
  deriving DecidableEq

structure MovieOut where
  shows : ℕ
  gross : ℚ
  sold : ℤ
  totalSeats : ℤ
  venues : ℕ
  cities : ℕ
  fastfilling : ℕ
  housefull : ℕ
  occupancy : ℚ
  cityDetails : List CityOut
  langDetails : List LabelOut
  fmtDetails : List LabelOut
  deriving DecidableEq

def finalizeCity (c : CityAcc) : CityOut :=
  { city := c.city, state := c.state, venues := c.d.venues.length,
    shows := c.d.shows, gross := roundTo 2 c.d.gross, sold := c.d.sold,
    totalSeats := c.d.totalSeats, fastfilling := c.d.fastfilling,
    housefull := c.d.housefull,
    occupancy := calc_occupancy c.d.sold c.d.totalSeats }

def finalizeLabel (l : LabelAcc) : LabelOut :=
  { label := l.label, venues := l.d.venues.length, shows := l.d.shows,
    gross := roundTo 2 l.d.gross, sold := l.d.sold,
    totalSeats := l.d.totalSeats, fastfilling := l.d.fastfilling,
    housefull := l.d.housefull,
    occupancy := calc_occupancy l.d.sold l.d.totalSeats }

def finalizeMovie (m : MovieAcc) : MovieOut :=
  { shows := m.shows, gross := roundTo 2 m.gross, sold := m.sold,
    totalSeats := m.totalSeats, venues := m.venues.length,
    cities := m.cities.length, fastfilling := m.fastfilling,
    housefull := m.housefull,
    occupancy := calc_occupancy m.sold m.totalSeats,
    cityDetails := m.cityDetails.map (fun kv => finalizeCity kv.2),
    langDetails := m.langDetails.map (fun kv => finalizeLabel kv.2),
    fmtDetails := m.fmtDetails.map (fun kv => finalizeLabel kv.2) }

/-- combine_dailyshards.py lines 269-325 (`final_summary`). -/
def final_summary (rows : List NRow) : List (String × MovieOut) :=
  (buildSummary rows).map (fun kv => (kv.1, finalizeMovie kv.2))

end Combine

/-! ### Concrete sample inputs used by the verification layer -/

namespace Samples

def recA : ShowRecord :=
  { movie := "Movie A", venue := "V1", address := "Addr 1",
    language := "HINDI", dimension := "2D", chain := "PVR",
    time := "08:00 PM", audi := "A1", session_id := "101",
    totalSeats := 100, available := 50, sold := 50, gross := 5000,
    minutes_left := 10, city := "Mumbai", state := "Maharashtra",
    date := "20260101", source := "BMS" }

def recB : ShowRecord :=
  { recA with venue := "V2", session_id := "102", sold := 98, available := 2,
              gross := 9800 }

def recC : ShowRecord :=
  { recA with venue := "V3", session_id := "103", time := "09:00 PM" }

/-- The two-tier show of the gross-computation property: tier A
(total 50, avail 10, price 200) and tier B (total 30, avail 30, price 150). -/
def payloadTwoTier : Bms7.PayloadJ :=
  { ShowDetails := [
      { Venues := { VenueName := "V1", VenueAdd := "Addr 1", VenueCompName := "PVR" },
        Event := [
          { EventTitle := "Movie A",
            ChildEvents := [
              { EventDimension := "2D", EventLanguage := "HINDI",
                ShowTimes := [
                  { ShowDateCode := "20260101", ShowTime := "08:00 PM",
                    Attributes := "A1", SessionId := "101",
                    Categories := [⟨50, 10, 200⟩, ⟨30, 30, 150⟩] }] }] }] }] }

/-- A payload whose single tier reports more available than total seats
(SeatsAvail 20 over MaxSeats 10): a data-quality fault. -/
def payloadNegative : Bms7.PayloadJ :=
  { ShowDetails := [
      { Venues := { VenueName := "V1", VenueAdd := "Addr 1", VenueCompName := "PVR" },
        Event := [
          { EventTitle := "Movie N",
            ChildEvents := [
              { EventDimension := "2D", EventLanguage := "HINDI",
                ShowTimes := [
                  { ShowDateCode := "20260101", ShowTime := "08:00 PM",
                    Attributes := "A1", SessionId := "101",
                    Categories := [⟨10, 20, 100⟩] }] }] }] }] }

/-- A record whose show-time string cannot be parsed as `"%I:%M %p"`. -/
def recBadTime : ShowRecord := { recA with time := "TBA" }

def movieM1 : Bms9.MovieJ := { id := "m1", name := "Movie A", lang := "Hindi" }

/-- A District session whose `showTime` string parses neither as epoch
milliseconds nor as an ISO timestamp. -/
def sessionBadTime : Bms9.SessionJ :=
  { mid := "m1", lang := "Hindi", scrnFmt := "IMAX", total := 100, avail := 40,
    showTime := Bms9.TimeVal.str "TBA", audi := "A2", sid := "555",
    areas := [⟨100, 40, 150⟩] }

/-- Raw shard rows for the case-insensitive grouping property: same city up
to case and surrounding whitespace, different venues. -/
def rawMumbai1 : ShowRecord := { recA with city := "Mumbai" }

def rawMumbai2 : ShowRecord :=
  { recA with city := "MUMBAI ", state := "MAHARASHTRA ", venue := "V2",
              session_id := "102" }

/-- Normalized combiner rows with chosen occupancy levels (the identity
fields are distinct so none is a duplicate of another). -/
def nrow50 : Combine.NRow :=
  { movie := "Movie A", cityKey := "mumbai", stateKey := "maharashtra",
    city := "Mumbai", state := "Maharashtra", venue := "V1",
    address := "Addr 1", time := "08:00 PM", audi := "A1",
    session_id := "101", source := "BMS", date := "20260101",
    language := "HINDI", dimension := "2D", totalSeats := 100,
    available := 50, sold := 50, gross := 5000 }

def nrow98 : Combine.NRow :=
  { nrow50 with venue := "V2", session_id := "102", sold := 98, available := 2,
                gross := 9800 }

def nrow10 : Combine.NRow :=
  { nrow50 with venue := "V3", session_id := "103", sold := 10, available := 90,
                gross := 1000 }

end Samples

/-! ## Verification layer -/

section AMapLemmas

variable {K V : Type} [DecidableEq K]

theorem mapKeys_nil : mapKeys ([] : List (K × V)) = [] := rfl

theorem mapKeys_cons (kv : K × V) (m : List (K × V)) :
    mapKeys (kv :: m) = kv.1 :: mapKeys m := rfl

theorem mapKeys_append (m₁ m₂ : List (K × V)) :
    mapKeys (m₁ ++ m₂) = mapKeys m₁ ++ mapKeys m₂ := by
  simp [mapKeys]

theorem updEntry_fst (k : K) (v : V) (kv : K × V) : (updEntry k v kv).1 = kv.1 := by
  unfold updEntry
  by_cases h : kv.1 = k
  · rw [if_pos h, h]
  · rw [if_neg h]

theorem mapLookup_isSome_iff (m : List (K × V)) (k : K) :
    (mapLookup m k).isSome ↔ k ∈ mapKeys m := by
  induction m with
  | nil => simp [mapLookup, mapKeys]
  | cons kv rest ih =>
    by_cases h : kv.1 = k
    · simp [mapLookup, h, mapKeys_cons]
    · rw [mapLookup, if_neg h, mapKeys_cons]
      simp only [List.mem_cons, ih]
      constructor
      · exact fun hm => Or.inr hm
      · rintro (hk | hm)
        · exact absurd hk.symm h
        · exact hm

theorem mapLookup_eq_none_iff (m : List (K × V)) (k : K) :
    mapLookup m k = none ↔ k ∉ mapKeys m := by
  rw [← mapLookup_isSome_iff]
  cases mapLookup m k <;> simp

/-- Rewriting a map at an absent key changes nothing. -/
theorem map_updEntry_of_not_mem (m : List (K × V)) (k : K) (v : V)
    (h : k ∉ mapKeys m) :
    m.map (updEntry k v) = m := by
  induction m with
  | nil => rfl
  | cons kv rest ih =>
    rw [mapKeys_cons] at h
    simp only [List.mem_cons, not_or] at h
    rw [List.map_cons, ih h.2, updEntry, if_neg (fun he => h.1 he.symm)]

theorem mapInsert_of_mem (m : List (K × V)) (k : K) (v : V)
    (h : k ∈ mapKeys m) :
    mapInsert m k v = m.map (updEntry k v) := by
  rw [mapInsert, if_pos ((mapLookup_isSome_iff m k).mpr h)]

theorem mapInsert_of_not_mem (m : List (K × V)) (k : K) (v : V)
    (h : k ∉ mapKeys m) :
    mapInsert m k v = m ++ [(k, v)] := by
  rw [mapInsert, if_neg]
  intro hs
  exact h ((mapLookup_isSome_iff m k).mp hs)

theorem mapKeys_map_updEntry (m : List (K × V)) (k : K) (v : V) :
    mapKeys (m.map (updEntry k v)) = mapKeys m := by
  unfold mapKeys
  rw [List.map_map]
  exact List.map_congr_left (fun kv _ => updEntry_fst k v kv)

theorem mapKeys_mapInsert (m : List (K × V)) (k : K) (v : V) :
    mapKeys (mapInsert m k v) = if k ∈ mapKeys m then mapKeys m else mapKeys m ++ [k] := by
  by_cases h : k ∈ mapKeys m
  · rw [mapInsert_of_mem m k v h, if_pos h, mapKeys_map_updEntry]
  · rw [mapInsert_of_not_mem m k v h, if_neg h, mapKeys_append]
    rfl

theorem mem_mapKeys_mapInsert (m : List (K × V)) (k k0 : K) (v : V) :
    k ∈ mapKeys (mapInsert m k0 v) ↔ k ∈ mapKeys m ∨ k = k0 := by
  rw [mapKeys_mapInsert]
  by_cases h : k0 ∈ mapKeys m
  · rw [if_pos h]
    constructor
    · exact fun hm => Or.inl hm
    · rintro (hm | he)
      · exact hm
      · rwa [he]
  · rw [if_neg h]
    simp [List.mem_append]

theorem nodup_mapKeys_mapInsert (m : List (K × V)) (k : K) (v : V)
    (h : (mapKeys m).Nodup) : (mapKeys (mapInsert m k v)).Nodup := by
  rw [mapKeys_mapInsert]
  by_cases hk : k ∈ mapKeys m
  · rwa [if_pos hk]
  · rw [if_neg hk]
    exact List.Nodup.append h (List.nodup_singleton k) (by simpa using hk)

theorem mapLookup_mapInsert_self (m : List (K × V)) (k : K) (v : V) :
    mapLookup (mapInsert m k v) k = some v := by
  by_cases h : k ∈ mapKeys m
  · rw [mapInsert_of_mem m k v h]
    induction m with
    | nil => simp [mapKeys] at h
    | cons kv rest ih =>
      by_cases hk : kv.1 = k
      · rw [List.map_cons, show updEntry k v kv = (k, v) from by rw [updEntry, if_pos hk],
          mapLookup, if_pos rfl]
      · rw [List.map_cons, show updEntry k v kv = kv from by rw [updEntry, if_neg hk],
          mapLookup, if_neg hk]
        rw [mapKeys_cons, List.mem_cons] at h
        exact ih (h.resolve_left (fun he => hk he.symm))
  · rw [mapInsert_of_not_mem m k v h]
    induction m with
    | nil => simp [mapLookup]
    | cons kv rest ih =>
      rw [mapKeys_cons] at h
      simp only [List.mem_cons, not_or] at h
      rw [List.cons_append, mapLookup, if_neg (fun he => h.1 he.symm)]
      exact ih h.2

theorem mapLookup_singleton_eq (k1 k2 : K) (v : V) (h : k1 = k2) :
    mapLookup [(k1, v)] k2 = some v := by
  subst h
  rw [mapLookup, if_pos rfl]

theorem mapInsert_singleton_eq (k1 k2 : K) (v1 v2 : V) (h : k1 = k2) :
    mapInsert [(k1, v1)] k2 v2 = [(k2, v2)] := by
  subst h
  rw [mapInsert_of_mem _ _ _ (List.mem_singleton.mpr rfl), List.map_cons,
    List.map_nil, updEntry, if_pos rfl]

end AMapLemmas

section DedupeLemmas

variable {α K : Type} [DecidableEq K]

theorem dedupeGo_cons_mem (key : α → K) (seen : List K) (r : α) (rest : List α)
    (h : key r ∈ seen) :
    dedupeGo key seen (r :: rest) =
      ((dedupeGo key seen rest).1, (dedupeGo key seen rest).2 + 1) := by
  simp only [dedupeGo]
  rw [if_pos h]

theorem dedupeGo_cons_not_mem (key : α → K) (seen : List K) (r : α) (rest : List α)
    (h : key r ∉ seen) :
    dedupeGo key seen (r :: rest) =
      (r :: (dedupeGo key (key r :: seen) rest).1,
        (dedupeGo key (key r :: seen) rest).2) := by
  simp only [dedupeGo]
  rw [if_neg h]

/-- The duplicate count is exactly the number of dropped records. -/
theorem dedupeGo_count (key : α → K) (seen : List K) (rows : List α) :
    (dedupeGo key seen rows).2 + (dedupeGo key seen rows).1.length = rows.length := by
  induction rows generalizing seen with
  | nil => rfl
  | cons r rest ih =>
      by_cases h : key r ∈ seen
      · rw [dedupeGo_cons_mem key seen r rest h]
        have := ih seen
        simp only [List.length_cons]
        omega
      · rw [dedupeGo_cons_not_mem key seen r rest h]
        have := ih (key r :: seen)
        simp only [List.length_cons]
        omega

/-- The kept records are a sublist of the input (relative order preserved). -/
theorem dedupeGo_sublist (key : α → K) (seen : List K) (rows : List α) :
    (dedupeGo key seen rows).1.Sublist rows := by
  induction rows generalizing seen with
  | nil => exact List.Sublist.refl []
  | cons r rest ih =>
      by_cases h : key r ∈ seen
      · rw [dedupeGo_cons_mem key seen r rest h]
        exact List.Sublist.cons r (ih seen)
      · rw [dedupeGo_cons_not_mem key seen r rest h]
        exact List.Sublist.cons₂ r (ih (key r :: seen))

/-- Kept keys avoid the seen set and are pairwise distinct. -/
theorem dedupeGo_keys (key : α → K) (seen : List K) (rows : List α) :
    (∀ x ∈ (dedupeGo key seen rows).1, key x ∉ seen) ∧
      ((dedupeGo key seen rows).1.map key).Nodup := by
  induction rows generalizing seen with
  | nil => exact ⟨fun x hx => absurd hx (List.not_mem_nil x), List.nodup_nil⟩
  | cons r rest ih =>
      by_cases h : key r ∈ seen
      · rw [dedupeGo_cons_mem key seen r rest h]
        exact ih seen
      · rw [dedupeGo_cons_not_mem key seen r rest h]
        obtain ⟨ihdis, ihnd⟩ := ih (key r :: seen)
        constructor
        · intro x hx
          rcases List.mem_cons.mp hx with hx | hx
          · rw [hx]
            exact h
          · exact fun hc => ihdis x hx (List.mem_cons_of_mem (key r) hc)
        · rw [List.map_cons, List.nodup_cons]
          constructor
          · intro hc
            obtain ⟨x, hx, hkx⟩ := List.mem_map.mp hc
            exact ihdis x hx (hkx ▸ List.mem_cons_self (key r) seen)
          · exact ihnd

/-- First-wins: the records kept under any key form exactly the first input
record bearing that key. -/
theorem dedupeGo_filter (key : α → K) (seen : List K) (rows : List α) (k : K)
    (hk : k ∉ seen) :
    (dedupeGo key seen rows).1.filter (fun x => decide (key x = k)) =
      (rows.find? (fun x => decide (key x = k))).toList := by
  induction rows generalizing seen with
  | nil => rfl
  | cons r rest ih =>
      by_cases h : key r ∈ seen
      · have hne : ¬ (key r = k) := fun he => hk (he ▸ h)
        rw [dedupeGo_cons_mem key seen r rest h, ih seen hk,
          List.find?_cons_of_neg]
        simpa using hne
      · rw [dedupeGo_cons_not_mem key seen r rest h]
        by_cases hrk : key r = k
        · rw [List.filter_cons_of_pos (by simpa using hrk),
            List.find?_cons_of_pos _ (by simpa using hrk)]
          have hdis := (dedupeGo_keys key (key r :: seen) rest).1
          have hnil : (dedupeGo key (key r :: seen) rest).1.filter
              (fun x => decide (key x = k)) = [] := by
            rw [List.filter_eq_nil_iff]
            intro x hx
            simp only [decide_eq_true_eq]
            intro he
            exact hdis x hx (by rw [he, ← hrk]; exact List.mem_cons_self (key r) seen)
          rw [hnil]
          rfl
        · rw [List.filter_cons_of_neg (by simpa using hrk),
            List.find?_cons_of_neg _ (by simpa using hrk)]
          apply ih (key r :: seen)
          intro hc
          rcases List.mem_cons.mp hc with hc | hc
          · exact hrk hc.symm
          · exact hk hc

end DedupeLemmas

namespace Bms7

theorem dictUpdate_eq (old r : ShowRecord) : dictUpdate old r = r := rfl

theorem mergeStep_eq (o m : List (ShowKey × ShowRecord)) (r : ShowRecord) :
    mergeStep (o, m) r =
      (o.map (updEntry (show_key r) r), mapInsert m (show_key r) r) := by
  unfold mergeStep
  cases h : mapLookup o (show_key r) with
  | none =>
      have hnm : show_key r ∉ mapKeys o := (mapLookup_eq_none_iff o (show_key r)).mp h
      simp only []
      rw [map_updEntry_of_not_mem o (show_key r) r hnm]
  | some v =>
      simp only [dictUpdate_eq]
      rw [mapInsert_of_mem o (show_key r) r
        ((mapLookup_isSome_iff o (show_key r)).mp (by rw [h]; rfl))]

theorem foldl_mergeStep (rs : List ShowRecord) (o m : List (ShowKey × ShowRecord)) :
    rs.foldl mergeStep (o, m) = (updOld o rs, insRows m rs) := by
  induction rs generalizing o m with
  | nil => rfl
  | cons r rest ih =>
      rw [List.foldl_cons, mergeStep_eq, ih]
      rfl

theorem updOld_eq_map (rs : List ShowRecord) (o : List (ShowKey × ShowRecord)) :
    updOld o rs = o.map (entryUpd rs) := by
  induction rs generalizing o with
  | nil =>
      rw [show updOld o [] = o from rfl]
      exact (List.map_congr_left (fun kv _ => rfl)).symm ▸ (List.map_id o).symm
  | cons r rest ih =>
      rw [show updOld o (r :: rest) = updOld (o.map (updEntry (show_key r) r)) rest from rfl,
        ih, List.map_map]
      rfl

theorem entryUpd_fst (rs : List ShowRecord) (kv : ShowKey × ShowRecord) :
    (entryUpd rs kv).1 = kv.1 := by
  induction rs generalizing kv with
  | nil => rfl
  | cons r rest ih =>
      rw [show entryUpd (r :: rest) kv = entryUpd rest (updEntry (show_key r) r kv) from rfl,
        ih, updEntry_fst]

theorem entryUpd_of_not_mem (rs : List ShowRecord) (kv : ShowKey × ShowRecord)
    (h : kv.1 ∉ rs.map show_key) : entryUpd rs kv = kv := by
  induction rs generalizing kv with
  | nil => rfl
  | cons r rest ih =>
      rw [List.map_cons, List.mem_cons, not_or] at h
      rw [show entryUpd (r :: rest) kv = entryUpd rest (updEntry (show_key r) r kv) from rfl,
        updEntry, if_neg h.1, ih kv h.2]

theorem entryUpd_coherent (rs : List ShowRecord) (kv : ShowKey × ShowRecord)
    (h : show_key kv.2 = kv.1) :
    show_key (entryUpd rs kv).2 = (entryUpd rs kv).1 := by
  induction rs generalizing kv with
  | nil => exact h
  | cons r rest ih =>
      rw [show entryUpd (r :: rest) kv = entryUpd rest (updEntry (show_key r) r kv) from rfl]
      apply ih
      unfold updEntry
      by_cases hk : kv.1 = show_key r
      · rw [if_pos hk]
      · rw [if_neg hk]
        exact h

theorem mapKeys_map_entryUpd (rs : List ShowRecord) (o : List (ShowKey × ShowRecord)) :
    mapKeys (o.map (entryUpd rs)) = mapKeys o := by
  unfold mapKeys
  rw [List.map_map]
  exact List.map_congr_left (fun kv _ => entryUpd_fst rs kv)

theorem keyCoherent_mapInsert (m : List (ShowKey × ShowRecord)) (k : ShowKey)
    (v : ShowRecord) (hm : KeyCoherent m) (hv : show_key v = k) :
    KeyCoherent (mapInsert m k v) := by
  intro kv hkv
  by_cases h : k ∈ mapKeys m
  · rw [mapInsert_of_mem m k v h] at hkv
    obtain ⟨kv0, hkv0, heq⟩ := List.mem_map.mp hkv
    subst heq
    unfold updEntry
    by_cases hk : kv0.1 = k
    · rw [if_pos hk]
      exact hv
    · rw [if_neg hk]
      exact hm kv0 hkv0
  · rw [mapInsert_of_not_mem m k v h, List.mem_append] at hkv
    rcases hkv with hkv | hkv
    · exact hm kv hkv
    · rw [List.mem_singleton] at hkv
      subst hkv
      exact hv

theorem keyCoherent_insRows (m : List (ShowKey × ShowRecord))
    (rows : List ShowRecord) (hm : KeyCoherent m) :
    KeyCoherent (insRows m rows) := by
  induction rows generalizing m with
  | nil => exact hm
  | cons r rest ih =>
      exact ih (mapInsert m (show_key r) r)
        (keyCoherent_mapInsert m (show_key r) r hm rfl)

theorem nodup_mapKeys_insRows (m : List (ShowKey × ShowRecord))
    (rows : List ShowRecord) (hm : (mapKeys m).Nodup) :
    (mapKeys (insRows m rows)).Nodup := by
  induction rows generalizing m with
  | nil => exact hm
  | cons r rest ih =>
      exact ih (mapInsert m (show_key r) r)
        (nodup_mapKeys_mapInsert m (show_key r) r hm)

theorem mem_mapKeys_insRows (m : List (ShowKey × ShowRecord))
    (rows : List ShowRecord) (k : ShowKey) :
    k ∈ mapKeys (insRows m rows) ↔ k ∈ mapKeys m ∨ k ∈ rows.map show_key := by
  induction rows generalizing m with
  | nil => simp [insRows]
  | cons r rest ih =>
      rw [show insRows m (r :: rest) = insRows (mapInsert m (show_key r) r) rest from rfl,
        ih, mem_mapKeys_mapInsert, List.map_cons, List.mem_cons]
      tauto

theorem retainOld_eq_append (oldM nm : List (ShowKey × ShowRecord))
    (h : (mapKeys oldM).Nodup) :
    retainOld nm oldM =
      nm ++ oldM.filter (fun kv => decide (kv.1 ∉ mapKeys nm)) := by
  induction oldM generalizing nm with
  | nil => simp [retainOld]
  | cons kv rest ih =>
      rw [mapKeys_cons] at h
      have hrest : (mapKeys rest).Nodup := h.of_cons
      have hfresh : kv.1 ∉ mapKeys rest := (List.nodup_cons.mp h).1
      rw [show retainOld nm (kv :: rest) =
        retainOld (if (mapLookup nm kv.1).isSome then nm else mapInsert nm kv.1 kv.2) rest
        from rfl]
      by_cases hm : kv.1 ∈ mapKeys nm
      · rw [if_pos ((mapLookup_isSome_iff nm kv.1).mpr hm), ih nm hrest,
          List.filter_cons, show (decide (kv.1 ∉ mapKeys nm)) = false from by simp [hm]]
        simp
      · have hins : mapInsert nm kv.1 kv.2 = nm ++ [kv] := by
          rw [mapInsert_of_not_mem nm kv.1 kv.2 hm]
        rw [if_neg (by rw [(mapLookup_eq_none_iff nm kv.1).mpr hm]; simp), hins,
          ih (nm ++ [kv]) hrest]
        have hflt : rest.filter (fun kv2 => decide (kv2.1 ∉ mapKeys (nm ++ [kv]))) =
            rest.filter (fun kv2 => decide (kv2.1 ∉ mapKeys nm)) := by
          apply List.filter_congr
          intro kv2 hkv2
          have hne : kv2.1 ≠ kv.1 := by
            intro he
            exact hfresh (he ▸ List.mem_map_of_mem (fun p => p.1) hkv2)
          apply decide_eq_decide.mpr
          have hsing : mapKeys (nm ++ [kv]) = mapKeys nm ++ [kv.1] := by
            rw [mapKeys_append]
            rfl
          rw [hsing]
          simp [List.mem_append, hne]
        rw [hflt, List.filter_cons,
          show (decide (kv.1 ∉ mapKeys nm)) = true from by simp [hm]]
        simp

theorem merge_eq_mergeMap (old_rows all_rows : List ShowRecord) :
    merge old_rows all_rows = (mergeMap old_rows all_rows).map (fun kv => kv.2) := by
  have h1 : merge old_rows all_rows =
      (retainOld (List.foldl mergeStep (mapFromRows old_rows, []) all_rows).2
        (List.foldl mergeStep (mapFromRows old_rows, []) all_rows).1).map
        (fun kv => kv.2) := rfl
  rw [h1, foldl_mergeStep, updOld_eq_map]
  unfold mergeMap
  apply congrArg
  apply retainOld_eq_append
  rw [mapKeys_map_entryUpd]
  exact nodup_mapKeys_insRows [] old_rows List.nodup_nil

theorem keyCoherent_mergeMap (old_rows all_rows : List ShowRecord) :
    KeyCoherent (mergeMap old_rows all_rows) := by
  intro kv hkv
  rw [mergeMap, List.mem_append] at hkv
  rcases hkv with hkv | hkv
  · exact keyCoherent_insRows [] all_rows (fun kv h => absurd h (List.not_mem_nil kv)) kv hkv
  · have hkv2 := List.mem_of_mem_filter hkv
    obtain ⟨kv0, hkv0, heq⟩ := List.mem_map.mp hkv2
    subst heq
    exact entryUpd_coherent all_rows kv0
      (keyCoherent_insRows [] old_rows (fun kv h => absurd h (List.not_mem_nil kv)) kv0 hkv0)

theorem nodup_mapKeys_mergeMap (old_rows all_rows : List ShowRecord) :
    (mapKeys (mergeMap old_rows all_rows)).Nodup := by
  rw [mergeMap, mapKeys_append]
  apply List.Nodup.append
  · exact nodup_mapKeys_insRows [] all_rows List.nodup_nil
  · have hnd2 : (mapKeys ((mapFromRows old_rows).map (entryUpd all_rows))).Nodup := by
      rw [mapKeys_map_entryUpd]
      exact nodup_mapKeys_insRows [] old_rows List.nodup_nil
    have hsub : (mapKeys (((mapFromRows old_rows).map (entryUpd all_rows)).filter
        (fun kv => decide (kv.1 ∉ mapKeys (insRows [] all_rows))))).Sublist
        (mapKeys ((mapFromRows old_rows).map (entryUpd all_rows))) := by
      unfold mapKeys
      exact List.Sublist.map _ (List.filter_sublist _)
    exact List.Nodup.sublist hsub hnd2
  · intro k hk1 hk2
    obtain ⟨kv, hkv, heq⟩ := List.mem_map.mp hk2
    have hp := List.of_mem_filter hkv
    rw [decide_eq_true_eq] at hp
    exact hp (heq ▸ hk1)

/-- Rebuilding the keyed map from its own record list returns the same map,
provided keys are distinct and every entry records its own key. -/
theorem insRows_of_coherent (m acc : List (ShowKey × ShowRecord))
    (hfresh : ∀ kv ∈ m, kv.1 ∉ mapKeys acc)
    (hcoh : KeyCoherent m) (hnd : (mapKeys m).Nodup) :
    insRows acc (m.map (fun kv => kv.2)) = acc ++ m := by
  induction m generalizing acc with
  | nil => simp [insRows]
  | cons kv rest ih =>
      have hkey : show_key kv.2 = kv.1 := hcoh kv (List.mem_cons_self kv rest)
      have hstep : insRows acc (kv.2 :: rest.map (fun kv => kv.2)) =
          insRows (mapInsert acc (show_key kv.2) kv.2) (rest.map (fun kv => kv.2)) := rfl
      rw [List.map_cons, hstep, hkey,
        mapInsert_of_not_mem acc kv.1 kv.2 (hfresh kv (List.mem_cons_self kv rest))]
      have hfresh2 : ∀ kv2 ∈ rest, kv2.1 ∉ mapKeys (acc ++ [(kv.1, kv.2)]) := by
        intro kv2 hkv2
        rw [mapKeys_append, List.mem_append]
        rintro (hc | hc)
        · exact hfresh kv2 (List.mem_cons_of_mem kv hkv2) hc
        · rw [show mapKeys [(kv.1, kv.2)] = [kv.1] from rfl, List.mem_singleton] at hc
          rw [mapKeys_cons] at hnd
          exact (List.nodup_cons.mp hnd).1
            (hc ▸ List.mem_map_of_mem (fun p => p.1) hkv2)
      rw [ih (acc ++ [(kv.1, kv.2)]) hfresh2
        (fun kv2 h => hcoh kv2 (List.mem_cons_of_mem kv h))
        (by rw [mapKeys_cons] at hnd; exact hnd.of_cons),
        List.append_assoc]
      rfl

theorem mapFromRows_of_coherent (m : List (ShowKey × ShowRecord))
    (hcoh : KeyCoherent m) (hnd : (mapKeys m).Nodup) :
    mapFromRows (m.map (fun kv => kv.2)) = m := by
  have h := insRows_of_coherent m [] (fun kv _ => List.not_mem_nil kv.1) hcoh hnd
  rw [mapFromRows, h, List.nil_append]

/-- Merging the same new records into an already-merged snapshot rebuilds the
identical keyed map. -/
theorem mergeMap_merge (S N : List ShowRecord) :
    mergeMap (merge S N) N = mergeMap S N := by
  have hM : mapFromRows (merge S N) = mergeMap S N := by
    rw [merge_eq_mergeMap]
    exact mapFromRows_of_coherent (mergeMap S N) (keyCoherent_mergeMap S N)
      (nodup_mapKeys_mergeMap S N)
  have hexp : mergeMap (merge S N) N = insRows [] N ++
      ((mergeMap S N).map (entryUpd N)).filter
        (fun kv => decide (kv.1 ∉ mapKeys (insRows [] N))) := by
    rw [mergeMap, hM]
  rw [hexp,
    show (mergeMap S N) = insRows [] N ++
      ((mapFromRows S).map (entryUpd N)).filter
        (fun kv => decide (kv.1 ∉ mapKeys (insRows [] N))) from rfl,
    List.map_append, List.filter_append]
  have h2 : ((((mapFromRows S).map (entryUpd N)).filter
      (fun kv => decide (kv.1 ∉ mapKeys (insRows [] N)))).map (entryUpd N)) =
      ((mapFromRows S).map (entryUpd N)).filter
      (fun kv => decide (kv.1 ∉ mapKeys (insRows [] N))) := by
    have hcongr : (((mapFromRows S).map (entryUpd N)).filter
        (fun kv => decide (kv.1 ∉ mapKeys (insRows [] N)))).map (entryUpd N) =
        (((mapFromRows S).map (entryUpd N)).filter
        (fun kv => decide (kv.1 ∉ mapKeys (insRows [] N)))).map id := by
      apply List.map_congr_left
      intro kv hkv
      have hp := List.of_mem_filter hkv
      rw [decide_eq_true_eq] at hp
      have hnk : kv.1 ∉ N.map show_key := by
        intro hmem
        exact hp ((mem_mapKeys_insRows [] N kv.1).mpr (Or.inr hmem))
      exact entryUpd_of_not_mem N kv hnk
    rw [hcongr, List.map_id]
  rw [h2]
  have h1 : (((insRows [] N).map (entryUpd N)).filter
      (fun kv => decide (kv.1 ∉ mapKeys (insRows [] N)))) = [] := by
    rw [List.filter_eq_nil_iff]
    intro kv hkv
    obtain ⟨kv0, hkv0, heq⟩ := List.mem_map.mp hkv
    have hk : kv.1 ∈ mapKeys (insRows [] N) := by
      rw [← heq, entryUpd_fst]
      exact List.mem_map_of_mem (fun p => p.1) hkv0
    simp [hk]
  rw [h1]
  have h3 : ∀ (l : List (ShowKey × ShowRecord)) (p : (ShowKey × ShowRecord) → Bool),
      (l.filter p).filter p = l.filter p := by
    intro l p
    rw [List.filter_eq_self]
    intro kv hkv
    exact List.of_mem_filter hkv
  rw [List.nil_append, h3]

/-- On a snapshot with pairwise-distinct keys, the dict comprehension pairs
each record with its own key, in order. -/
theorem insRows_of_nodup (S : List ShowRecord) (acc : List (ShowKey × ShowRecord))
    (hfresh : ∀ r ∈ S, show_key r ∉ mapKeys acc)
    (h : (S.map show_key).Nodup) :
    insRows acc S = acc ++ S.map (fun r => (show_key r, r)) := by
  induction S generalizing acc with
  | nil => simp [insRows]
  | cons r rest ih =>
      rw [show insRows acc (r :: rest) = insRows (mapInsert acc (show_key r) r) rest from rfl,
        mapInsert_of_not_mem acc (show_key r) r (hfresh r (List.mem_cons_self r rest))]
      rw [List.map_cons] at h
      have hd := (List.nodup_cons.mp h).1
      have hfresh2 : ∀ x ∈ rest, show_key x ∉ mapKeys (acc ++ [(show_key r, r)]) := by
        intro x hx
        rw [mapKeys_append, List.mem_append]
        rintro (hc | hc)
        · exact hfresh x (List.mem_cons_of_mem r hx) hc
        · rw [show mapKeys [(show_key r, r)] = [show_key r] from rfl,
            List.mem_singleton] at hc
          exact hd (hc ▸ List.mem_map_of_mem show_key hx)
      rw [ih (acc ++ [(show_key r, r)]) hfresh2 (List.nodup_cons.mp h).2,
        List.append_assoc]
      rfl

theorem mapFromRows_of_nodup (S : List ShowRecord)
    (h : (S.map show_key).Nodup) :
    mapFromRows S = S.map (fun r => (show_key r, r)) := by
  have hi := insRows_of_nodup S [] (fun r _ => List.not_mem_nil (show_key r)) h
  rw [mapFromRows, hi, List.nil_append]

/-- The keys of the merge output are exactly the keys of the merged map. -/
theorem merge_map_show_key (S N : List ShowRecord) :
    (merge S N).map show_key = mapKeys (mergeMap S N) := by
  rw [merge_eq_mergeMap, List.map_map]
  exact List.map_congr_left (fun kv hkv => keyCoherent_mergeMap S N kv hkv)

end Bms7

namespace Combine

/-- Branch-free normal form of the repeated bucket-update block. -/
theorem updDetail_eq (d : DetailAcc) (venue : String) (g : ℚ) (sold total : ℤ)
    (occ : ℚ) :
    updDetail d venue g sold total occ =
      { d with venues := setAdd d.venues venue, shows := d.shows + 1,
               gross := d.gross + g, sold := d.sold + sold,
               totalSeats := d.totalSeats + total,
               housefull := d.housefull + (if occ ≥ 98 then 1 else 0),
               fastfilling := d.fastfilling +
                 (if occ ≥ 98 then 0 else if occ ≥ 50 then 1 else 0) } := by
  unfold updDetail
  by_cases h1 : occ ≥ 98
  · rw [if_pos h1, if_pos h1, if_pos h1]
    simp
  · rw [if_neg h1, if_neg h1, if_neg h1]
    by_cases h2 : occ ≥ 50
    · rw [if_pos h2, if_pos h2]
      simp
    · rw [if_neg h2, if_neg h2]
      simp

/-- Branch-free normal form of the movie-level counter update. -/
theorem updMovieCounters_eq (m : MovieAcc) (r : NRow) (occ : ℚ) :
    updMovieCounters m r occ =
      { m with shows := m.shows + 1, gross := m.gross + r.gross,
               sold := m.sold + r.sold, totalSeats := m.totalSeats + r.totalSeats,
               venues := setAdd m.venues r.venue,
               cities := setAdd m.cities r.cityKey,
               housefull := m.housefull + (if occ ≥ 98 then 1 else 0),
               fastfilling := m.fastfilling +
                 (if occ ≥ 98 then 0 else if occ ≥ 50 then 1 else 0) } := by
  unfold updMovieCounters
  by_cases h1 : occ ≥ 98
  · rw [if_pos h1, if_pos h1, if_pos h1]
    simp
  · rw [if_neg h1, if_neg h1, if_neg h1]
    by_cases h2 : occ ≥ 50
    · rw [if_pos h2, if_pos h2]
      simp
    · rw [if_neg h2, if_neg h2]
      simp

/-- One summary-loop step is an insert at the record's movie key. -/
theorem summarizeStep_is_insert (s : List (String × MovieAcc)) (r : NRow) :
    ∃ m, summarizeStep s r = mapInsert s r.movie m :=
  ⟨_, rfl⟩

/-- One summary-loop step inserts, at the record's movie key, exactly the
bucket that a lookup after the step returns. -/
theorem summarizeStep_eq_insert (s : List (String × MovieAcc)) (r : NRow) :
    summarizeStep s r = mapInsert s r.movie
      ((mapLookup (summarizeStep s r) r.movie).getD initMovieAcc) := by
  obtain ⟨m, hm⟩ := summarizeStep_is_insert s r
  conv_lhs => rw [hm]
  rw [hm, mapLookup_mapInsert_self, Option.getD_some]

/-- Normal form of the movie bucket after one summary-loop step. -/
theorem summarizeStep_lookup_movie (s : List (String × MovieAcc)) (r : NRow) :
    (mapLookup (summarizeStep s r) r.movie).getD initMovieAcc =
      (let occ := occOf r.sold r.totalSeats
       let m0 := (mapLookup s r.movie).getD initMovieAcc
       let cd0 := (mapLookup m0.cityDetails (r.cityKey, r.stateKey)).getD
         { city := r.city, state := r.state, d := initDetailAcc }
       let l0 := (mapLookup m0.langDetails r.language).getD
         { label := r.language, d := initDetailAcc }
       let f0 := (mapLookup m0.fmtDetails r.dimension).getD
         { label := r.dimension, d := initDetailAcc }
       { shows := m0.shows + 1, gross := m0.gross + r.gross,
         sold := m0.sold + r.sold, totalSeats := m0.totalSeats + r.totalSeats,
         venues := setAdd m0.venues r.venue, cities := setAdd m0.cities r.cityKey,
         housefull := m0.housefull + (if occ ≥ 98 then 1 else 0),
         fastfilling := m0.fastfilling +
           (if occ ≥ 98 then 0 else if occ ≥ 50 then 1 else 0),
         cityDetails := mapInsert m0.cityDetails (r.cityKey, r.stateKey)
           ({ cd0 with d := updDetail cd0.d r.venue r.gross r.sold r.totalSeats occ }),
         langDetails := mapInsert m0.langDetails r.language
           ({ l0 with d := updDetail l0.d r.venue r.gross r.sold r.totalSeats occ }),
         fmtDetails := mapInsert m0.fmtDetails r.dimension
           ({ f0 with d := updDetail f0.d r.venue r.gross r.sold r.totalSeats occ }) }) := by
  simp only [summarizeStep, mapLookup_mapInsert_self, Option.getD_some,
    updMovieCounters_eq]

/-- City bucket after one step: the looked-up (or freshly initialized) bucket
with its detail counters updated once. -/
theorem summarizeStep_lookup_city (s : List (String × MovieAcc)) (r : NRow) :
    mapLookup ((mapLookup (summarizeStep s r) r.movie).getD initMovieAcc).cityDetails
        (r.cityKey, r.stateKey) =
      (let occ := occOf r.sold r.totalSeats
       let m0 := (mapLookup s r.movie).getD initMovieAcc
       let cd0 := (mapLookup m0.cityDetails (r.cityKey, r.stateKey)).getD
         { city := r.city, state := r.state, d := initDetailAcc }
       some { cd0 with d := updDetail cd0.d r.venue r.gross r.sold r.totalSeats occ }) := by
  rw [summarizeStep_lookup_movie]
  simp only [mapLookup_mapInsert_self]

/-- Language bucket after one step. -/
theorem summarizeStep_lookup_lang (s : List (String × MovieAcc)) (r : NRow) :
    mapLookup ((mapLookup (summarizeStep s r) r.movie).getD initMovieAcc).langDetails
        r.language =
      (let occ := occOf r.sold r.totalSeats
       let m0 := (mapLookup s r.movie).getD initMovieAcc
       let l0 := (mapLookup m0.langDetails r.language).getD
         { label := r.language, d := initDetailAcc }
       some { l0 with d := updDetail l0.d r.venue r.gross r.sold r.totalSeats occ }) := by
  rw [summarizeStep_lookup_movie]
  simp only [mapLookup_mapInsert_self]

/-- Format bucket after one step. -/
theorem summarizeStep_lookup_fmt (s : List (String × MovieAcc)) (r : NRow) :
    mapLookup ((mapLookup (summarizeStep s r) r.movie).getD initMovieAcc).fmtDetails
        r.dimension =
      (let occ := occOf r.sold r.totalSeats
       let m0 := (mapLookup s r.movie).getD initMovieAcc
       let f0 := (mapLookup m0.fmtDetails r.dimension).getD
         { label := r.dimension, d := initDetailAcc }
       some { f0 with d := updDetail f0.d r.venue r.gross r.sold r.totalSeats occ }) := by
  rw [summarizeStep_lookup_movie]
  simp only [mapLookup_mapInsert_self]

end Combine

namespace Bms7

/-- The seat-tier loop with a general accumulator computes componentwise
sums over the tiers. -/
theorem tierFold_go (cats : List Category) (t a s : ℤ) (g : ℚ) :
    cats.foldl
      (fun acc c =>
        (acc.1 + c.MaxSeats, acc.2.1 + c.SeatsAvail,
          acc.2.2.1 + (c.MaxSeats - c.SeatsAvail),
          acc.2.2.2 + ((c.MaxSeats - c.SeatsAvail : ℤ) : ℚ) * c.CurPrice))
      (t, a, s, g) =
      (t + (cats.map (fun c => c.MaxSeats)).sum,
        a + (cats.map (fun c => c.SeatsAvail)).sum,
        s + (cats.map (fun c => c.MaxSeats - c.SeatsAvail)).sum,
        g + (cats.map (fun c => ((c.MaxSeats - c.SeatsAvail : ℤ) : ℚ) * c.CurPrice)).sum) := by
  induction cats generalizing t a s g with
  | nil => simp
  | cons c rest ih =>
      rw [List.foldl_cons, ih]
      simp only [List.map_cons, List.sum_cons, Prod.mk.injEq]
      exact ⟨by ring, by ring, by ring, by ring⟩

/-- The tier loop of `parse_payload`: total, available, sold and gross are
the componentwise sums over the seat tiers. -/
theorem tierFold_spec (cats : List Category) :
    tierFold cats =
      ((cats.map (fun c => c.MaxSeats)).sum,
        (cats.map (fun c => c.SeatsAvail)).sum,
        (cats.map (fun c => c.MaxSeats - c.SeatsAvail)).sum,
        (cats.map (fun c => ((c.MaxSeats - c.SeatsAvail : ℤ) : ℚ) * c.CurPrice)).sum) := by
  rw [tierFold, tierFold_go]
  simp

theorem sum_map_sub_cats (l : List Category) :
    (l.map (fun c => c.MaxSeats - c.SeatsAvail)).sum =
      (l.map (fun c => c.MaxSeats)).sum - (l.map (fun c => c.SeatsAvail)).sum := by
  induction l with
  | nil => simp
  | cons c rest ih =>
      simp only [List.map_cons, List.sum_cons, ih]
      ring

/-! #### Retry controller lemmas -/

theorem retryLoop_succ {V : Type} (succeeds : V → ℕ → Bool) (fuel round : ℕ)
    (pending : List V) (h : ¬ pending.isEmpty) :
    retryLoop succeeds (fuel + 1) round pending =
      ((retryLoop succeeds fuel (round + 1)
          (pending.filter (fun v => !(succeeds v round)))).1,
        (retryLoop succeeds fuel (round + 1)
          (pending.filter (fun v => !(succeeds v round)))).2 + 1) := by
  simp only [retryLoop]
  rw [if_neg h]

theorem retryAttempts_succ {V : Type} [DecidableEq V] (succeeds : V → ℕ → Bool)
    (v : V) (fuel round : ℕ) (pending : List V) (h : ¬ pending.isEmpty) :
    retryAttempts succeeds v (fuel + 1) round pending =
      pending.count v + retryAttempts succeeds v fuel (round + 1)
        (pending.filter (fun w => !(succeeds w round))) := by
  simp only [retryAttempts]
  rw [if_neg h]

/-- A venue that fails every attempt keeps the loop running: all `fuel`
rounds execute, the venue holds exactly one pending slot throughout, and is
attempted exactly once per executed round. -/
theorem retryLoop_always_failing {V : Type} [DecidableEq V]
    (succeeds : V → ℕ → Bool) (v : V) (hfail : ∀ k, succeeds v k = false)
    (fuel : ℕ) :
    ∀ (round : ℕ) (pending : List V), v ∈ pending → pending.Nodup →
      (retryLoop succeeds fuel round pending).2 = fuel ∧
      (retryLoop succeeds fuel round pending).1.count v = 1 ∧
      retryAttempts succeeds v fuel round pending = fuel := by
  induction fuel with
  | zero =>
      intro round pending hm hnd
      exact ⟨rfl, List.count_eq_one_of_mem hnd hm, rfl⟩
  | succ n ih =>
      intro round pending hm hnd
      have hne : ¬ pending.isEmpty := by
        cases pending with
        | nil => exact absurd hm (List.not_mem_nil v)
        | cons p rest => simp
      have hmemf : v ∈ pending.filter (fun w => !(succeeds w round)) := by
        rw [List.mem_filter]
        exact ⟨hm, by rw [hfail round]; rfl⟩
      have hndf : (pending.filter (fun w => !(succeeds w round))).Nodup :=
        List.Nodup.filter _ hnd
      obtain ⟨h1, h2, h3⟩ :=
        ih (round + 1) (pending.filter (fun w => !(succeeds w round))) hmemf hndf
      refine ⟨?_, ?_, ?_⟩
      · rw [retryLoop_succ succeeds n round pending hne]
        simpa using h1
      · rw [retryLoop_succ succeeds n round pending hne]
        simpa using h2
      · rw [retryAttempts_succ succeeds v n round pending hne,
          List.count_eq_one_of_mem hnd hm, h3]
        omega

end Bms7

/-! ## Claims -/

/-- C1: Merge idempotence.  For every prior snapshot list `S` and every
new-record list `N`, merging `N` into the result of merging `N` into `S`
yields the same record set as merging once:
`merge (merge S N) N = merge S N` for the identity-keyed old_map/new_map
fold of bmsdaily7 (here even as lists, entry for entry). -/
theorem C1_merge_idempotent (S N : List ShowRecord) :
    Bms7.merge (Bms7.merge S N) N = Bms7.merge S N := by
  rw [Bms7.merge_eq_mergeMap (Bms7.merge S N) N, Bms7.mergeMap_merge S N,
    ← Bms7.merge_eq_mergeMap S N]

/-- C2: Merge non-destructiveness.  Every record of a snapshot `S` (keyed by
identity key, hence pairwise-distinct keys) whose identity key appears in no
record of `N` is present in `merge S N` with all of its fields unchanged —
the record itself is in the output, so nothing is deleted by a run that
fails to re-observe it. -/
theorem C2_merge_nondestructive (S N : List ShowRecord) (r : ShowRecord)
    (hnd : (S.map Bms7.show_key).Nodup) (hmem : r ∈ S)
    (habs : Bms7.show_key r ∉ N.map Bms7.show_key) :
    r ∈ Bms7.merge S N := by
  rw [Bms7.merge_eq_mergeMap]
  have hpair : (Bms7.show_key r, r) ∈ Bms7.mapFromRows S := by
    rw [Bms7.mapFromRows_of_nodup S hnd]
    exact List.mem_map_of_mem _ hmem
  have hentry : (Bms7.show_key r, r) ∈ (Bms7.mapFromRows S).map (Bms7.entryUpd N) :=
    (Bms7.entryUpd_of_not_mem N (Bms7.show_key r, r) habs) ▸
      List.mem_map_of_mem _ hpair
  have hfilter : (Bms7.show_key r, r) ∈
      ((Bms7.mapFromRows S).map (Bms7.entryUpd N)).filter
        (fun kv => decide (kv.1 ∉ mapKeys (Bms7.insRows [] N))) := by
    rw [List.mem_filter]
    refine ⟨hentry, ?_⟩
    rw [decide_eq_true_eq]
    intro hc
    rcases (Bms7.mem_mapKeys_insRows [] N (Bms7.show_key r)).mp hc with hc2 | hc2
    · exact absurd hc2 (List.not_mem_nil _)
    · exact habs hc2
  exact List.mem_map.mpr ⟨(Bms7.show_key r, r),
    List.mem_append.mpr (Or.inr hfilter), rfl⟩

/-- Witness for C2 at a concrete input: a one-record snapshot whose key the
new-record list does not carry survives the merge unchanged. -/
theorem C2_merge_nondestructive_witness :
    (([Samples.recA].map Bms7.show_key).Nodup ∧ Samples.recA ∈ [Samples.recA] ∧
      Bms7.show_key Samples.recA ∉ [Samples.recB].map Bms7.show_key) ∧
      Samples.recA ∈ Bms7.merge [Samples.recA] [Samples.recB] :=
  ⟨⟨List.nodup_singleton _, List.mem_singleton.mpr rfl, by decide⟩,
    C2_merge_nondestructive [Samples.recA] [Samples.recB] Samples.recA
      (List.nodup_singleton _) (List.mem_singleton.mpr rfl) (by decide)⟩

/-- C3: Identity-key uniqueness.  The record list produced by the bmsdaily7
merge engine, by bmsdaily9's dedupe, and by the combiner's dedupe never
contains two records with an equal identity key
(venue, time, session_id, audi). -/
theorem C3_key_uniqueness :
    (∀ S N : List ShowRecord, ((Bms7.merge S N).map Bms7.show_key).Nodup) ∧
    (∀ rows : List ShowRecord, ((Bms9.dedupe rows).map Bms9.key9).Nodup) ∧
    (∀ rows : List Combine.NRow,
      ((Combine.dedupe rows).1.map Combine.rowKey).Nodup) := by
  refine ⟨?_, ?_, ?_⟩
  · intro S N
    rw [Bms7.merge_map_show_key]
    exact Bms7.nodup_mapKeys_mergeMap S N
  · intro rows
    exact (dedupeGo_keys Bms9.key9 [] rows).2
  · intro rows
    exact (dedupeGo_keys Combine.rowKey [] rows).2

/-- C10: The combiner's dedupe is first-wins and order-preserving: the kept
records are a sublist of the input (relative order intact), the records kept
under any identity key are exactly the first input record bearing that key,
and the reported duplicate count is the input length minus the output
length. -/
theorem C10_dedupe_first_wins :
    ∀ rows : List Combine.NRow,
      (Combine.dedupe rows).1.Sublist rows ∧
      (∀ k : ShowKey,
        (Combine.dedupe rows).1.filter (fun x => decide (Combine.rowKey x = k)) =
          (rows.find? (fun x => decide (Combine.rowKey x = k))).toList) ∧
      (Combine.dedupe rows).2 = rows.length - (Combine.dedupe rows).1.length := by
  intro rows
  refine ⟨dedupeGo_sublist Combine.rowKey [] rows, ?_, ?_⟩
  · intro k
    exact dedupeGo_filter Combine.rowKey [] rows k (List.not_mem_nil k)
  · have h := dedupeGo_count Combine.rowKey [] rows
    rw [show Combine.dedupe rows = dedupeGo Combine.rowKey [] rows from rfl]
    omega

/-- C6: Retry bound.  For a venue that fails on every attempt (the fetch
outcome oracle returns false at every attempt index), the run executes all
`MAX_RETRIES = 5` retry rounds, makes exactly `1 + number_of_retry_rounds`
fetch attempts for that venue (one first-pass attempt plus one per executed
round), and the venue appears in the permanent-failure report exactly
once. -/
theorem C6_retry_bound {V : Type} [DecidableEq V] (succeeds : V → ℕ → Bool)
    (venues : List V) (v : V) (hmem : v ∈ venues) (hnd : venues.Nodup)
    (hfail : ∀ k, succeeds v k = false) :
    (Bms7.runRetryPhase succeeds venues).2 = Bms7.MAX_RETRIES ∧
    Bms7.totalAttempts succeeds venues v =
      1 + (Bms7.runRetryPhase succeeds venues).2 ∧
    (Bms7.runRetryPhase succeeds venues).1.count v = 1 := by
  have hmemf : v ∈ Bms7.firstPassFailures succeeds venues := by
    rw [Bms7.firstPassFailures, List.mem_filter]
    exact ⟨hmem, by rw [hfail 0]; rfl⟩
  have hndf : (Bms7.firstPassFailures succeeds venues).Nodup :=
    List.Nodup.filter _ hnd
  obtain ⟨h1, h2, h3⟩ := Bms7.retryLoop_always_failing succeeds v hfail
    Bms7.MAX_RETRIES 1 (Bms7.firstPassFailures succeeds venues) hmemf hndf
  refine ⟨h1, ?_, h2⟩
  show venues.count v + Bms7.retryAttempts succeeds v Bms7.MAX_RETRIES 1
    (Bms7.firstPassFailures succeeds venues) = 1 + (Bms7.runRetryPhase succeeds venues).2
  rw [List.count_eq_one_of_mem hnd hmem, h3]
  show 1 + Bms7.MAX_RETRIES = 1 +
    (Bms7.retryLoop succeeds Bms7.MAX_RETRIES 1 (Bms7.firstPassFailures succeeds venues)).2
  rw [h1]

/-- Witness for C6 at a concrete input: one venue whose every attempt
fails. -/
theorem C6_retry_bound_witness :
    ((0 : ℕ) ∈ [0] ∧ ([0] : List ℕ).Nodup ∧
      (∀ k, (fun _ _ => false : ℕ → ℕ → Bool) 0 k = false)) ∧
    ((Bms7.runRetryPhase (fun _ _ => false) [0]).2 = Bms7.MAX_RETRIES ∧
      Bms7.totalAttempts (fun _ _ => false) [0] 0 =
        1 + (Bms7.runRetryPhase (fun _ _ => false) [0]).2 ∧
      (Bms7.runRetryPhase (fun _ _ => false) [0]).1.count 0 = 1) :=
  ⟨⟨List.mem_singleton.mpr rfl, List.nodup_singleton 0, fun _ => rfl⟩,
    C6_retry_bound (fun _ _ => false) [0] 0 (List.mem_singleton.mpr rfl)
      (List.nodup_singleton 0) (fun _ => rfl)⟩

/-- C4: Occupancy and status classification.  The classification occupancy
is `sold/total*100` and `0` when `total = 0` (no division fault); the
rounded `calc_occupancy` agrees at the claimed boundary inputs
(`50/100 = 50`, `98/100 = 98`, `0/0 = 0`); a show with total 100, sold 50
is classified exactly fast-filling (not housefull), total 100 sold 98 is
housefull, and occupancy below 50 increments neither counter while still
counting toward shows/gross/sold/totalSeats; and the same two-threshold
rule (`occ ≥ 98` housefull, else `occ ≥ 50` fast-filling, else neither) is
applied at the movie, city, language and format levels of the
aggregation. -/
theorem C4_occupancy_classification :
    (∀ sold total : ℤ, Combine.occOf sold total =
      if total ≠ 0 then (sold : ℚ) / (total : ℚ) * 100 else 0) ∧
    (∀ sold : ℤ, Bms7.calc_occupancy sold 0 = 0) ∧
    Bms7.calc_occupancy 50 100 = 50 ∧
    Bms7.calc_occupancy 98 100 = 98 ∧
    Combine.calc_occupancy 0 0 = 0 ∧
    (((mapLookup (Combine.buildSummary [Samples.nrow50]) Samples.nrow50.movie).getD
        Combine.initMovieAcc).fastfilling = 1 ∧
      ((mapLookup (Combine.buildSummary [Samples.nrow50]) Samples.nrow50.movie).getD
        Combine.initMovieAcc).housefull = 0) ∧
    (((mapLookup (Combine.buildSummary [Samples.nrow98]) Samples.nrow98.movie).getD
        Combine.initMovieAcc).housefull = 1 ∧
      ((mapLookup (Combine.buildSummary [Samples.nrow98]) Samples.nrow98.movie).getD
        Combine.initMovieAcc).fastfilling = 0) ∧
    (((mapLookup (Combine.buildSummary [Samples.nrow10]) Samples.nrow10.movie).getD
        Combine.initMovieAcc).fastfilling = 0 ∧
      ((mapLookup (Combine.buildSummary [Samples.nrow10]) Samples.nrow10.movie).getD
        Combine.initMovieAcc).housefull = 0 ∧
      ((mapLookup (Combine.buildSummary [Samples.nrow10]) Samples.nrow10.movie).getD
        Combine.initMovieAcc).shows = 1 ∧
      ((mapLookup (Combine.buildSummary [Samples.nrow10]) Samples.nrow10.movie).getD
        Combine.initMovieAcc).sold = 10 ∧
      ((mapLookup (Combine.buildSummary [Samples.nrow10]) Samples.nrow10.movie).getD
        Combine.initMovieAcc).totalSeats = 100 ∧
      ((mapLookup (Combine.buildSummary [Samples.nrow10]) Samples.nrow10.movie).getD
        Combine.initMovieAcc).gross = 1000) ∧
    (∀ (s : List (String × Combine.MovieAcc)) (r : Combine.NRow),
      ((mapLookup (Combine.summarizeStep s r) r.movie).getD
          Combine.initMovieAcc).housefull =
        ((mapLookup s r.movie).getD Combine.initMovieAcc).housefull +
          (if Combine.occOf r.sold r.totalSeats ≥ 98 then 1 else 0) ∧
      ((mapLookup (Combine.summarizeStep s r) r.movie).getD
          Combine.initMovieAcc).fastfilling =
        ((mapLookup s r.movie).getD Combine.initMovieAcc).fastfilling +
          (if Combine.occOf r.sold r.totalSeats ≥ 98 then 0
           else if Combine.occOf r.sold r.totalSeats ≥ 50 then 1 else 0) ∧
      ((mapLookup (Combine.summarizeStep s r) r.movie).getD
          Combine.initMovieAcc).shows =
        ((mapLookup s r.movie).getD Combine.initMovieAcc).shows + 1 ∧
      ((mapLookup (Combine.summarizeStep s r) r.movie).getD
          Combine.initMovieAcc).gross =
        ((mapLookup s r.movie).getD Combine.initMovieAcc).gross + r.gross ∧
      ((mapLookup (Combine.summarizeStep s r) r.movie).getD
          Combine.initMovieAcc).sold =
        ((mapLookup s r.movie).getD Combine.initMovieAcc).sold + r.sold ∧
      ((mapLookup (Combine.summarizeStep s r) r.movie).getD
          Combine.initMovieAcc).totalSeats =
        ((mapLookup s r.movie).getD Combine.initMovieAcc).totalSeats +
          r.totalSeats) ∧
    (∀ (s : List (String × Combine.MovieAcc)) (r : Combine.NRow),
      ((mapLookup ((mapLookup (Combine.summarizeStep s r) r.movie).getD
            Combine.initMovieAcc).cityDetails (r.cityKey, r.stateKey)).getD
          { city := r.city, state := r.state, d := Combine.initDetailAcc }).d.housefull =
        ((mapLookup ((mapLookup s r.movie).getD
            Combine.initMovieAcc).cityDetails (r.cityKey, r.stateKey)).getD
          { city := r.city, state := r.state, d := Combine.initDetailAcc }).d.housefull +
          (if Combine.occOf r.sold r.totalSeats ≥ 98 then 1 else 0) ∧
      ((mapLookup ((mapLookup (Combine.summarizeStep s r) r.movie).getD
            Combine.initMovieAcc).cityDetails (r.cityKey, r.stateKey)).getD
          { city := r.city, state := r.state, d := Combine.initDetailAcc }).d.fastfilling =
        ((mapLookup ((mapLookup s r.movie).getD
            Combine.initMovieAcc).cityDetails (r.cityKey, r.stateKey)).getD
          { city := r.city, state := r.state, d := Combine.initDetailAcc }).d.fastfilling +
          (if Combine.occOf r.sold r.totalSeats ≥ 98 then 0
           else if Combine.occOf r.sold r.totalSeats ≥ 50 then 1 else 0) ∧
      ((mapLookup ((mapLookup (Combine.summarizeStep s r) r.movie).getD
            Combine.initMovieAcc).cityDetails (r.cityKey, r.stateKey)).getD
          { city := r.city, state := r.state, d := Combine.initDetailAcc }).d.shows =
        ((mapLookup ((mapLookup s r.movie).getD
            Combine.initMovieAcc).cityDetails (r.cityKey, r.stateKey)).getD
          { city := r.city, state := r.state, d := Combine.initDetailAcc }).d.shows + 1) ∧
    (∀ (s : List (String × Combine.MovieAcc)) (r : Combine.NRow),
      ((mapLookup ((mapLookup (Combine.summarizeStep s r) r.movie).getD
            Combine.initMovieAcc).langDetails r.language).getD
          { label := r.language, d := Combine.initDetailAcc }).d.housefull =
        ((mapLookup ((mapLookup s r.movie).getD
            Combine.initMovieAcc).langDetails r.language).getD
          { label := r.language, d := Combine.initDetailAcc }).d.housefull +
          (if Combine.occOf r.sold r.totalSeats ≥ 98 then 1 else 0) ∧
      ((mapLookup ((mapLookup (Combine.summarizeStep s r) r.movie).getD
            Combine.initMovieAcc).langDetails r.language).getD
          { label := r.language, d := Combine.initDetailAcc }).d.fastfilling =
        ((mapLookup ((mapLookup s r.movie).getD
            Combine.initMovieAcc).langDetails r.language).getD
          { label := r.language, d := Combine.initDetailAcc }).d.fastfilling +
          (if Combine.occOf r.sold r.totalSeats ≥ 98 then 0
           else if Combine.occOf r.sold r.totalSeats ≥ 50 then 1 else 0)) ∧
    (∀ (s : List (String × Combine.MovieAcc)) (r : Combine.NRow),
      ((mapLookup ((mapLookup (Combine.summarizeStep s r) r.movie).getD
            Combine.initMovieAcc).fmtDetails r.dimension).getD
          { label := r.dimension, d := Combine.initDetailAcc }).d.housefull =
        ((mapLookup ((mapLookup s r.movie).getD
            Combine.initMovieAcc).fmtDetails r.dimension).getD
          { label := r.dimension, d := Combine.initDetailAcc }).d.housefull +
          (if Combine.occOf r.sold r.totalSeats ≥ 98 then 1 else 0) ∧
      ((mapLookup ((mapLookup (Combine.summarizeStep s r) r.movie).getD
            Combine.initMovieAcc).fmtDetails r.dimension).getD
          { label := r.dimension, d := Combine.initDetailAcc }).d.fastfilling =
        ((mapLookup ((mapLookup s r.movie).getD
            Combine.initMovieAcc).fmtDetails r.dimension).getD
          { label := r.dimension, d := Combine.initDetailAcc }).d.fastfilling +
          (if Combine.occOf r.sold r.totalSeats ≥ 98 then 0
           else if Combine.occOf r.sold r.totalSeats ≥ 50 then 1 else 0)) := by
  refine ⟨fun sold total => rfl, ?_, ?_, ?_, ?_, ?_, ?_, ?_, ?_, ?_, ?_, ?_⟩
  · intro sold
    simp [Bms7.calc_occupancy]
  · norm_num [Bms7.calc_occupancy, roundTo, roundHalfEven]
  · norm_num [Bms7.calc_occupancy, roundTo, roundHalfEven]
  · norm_num [Combine.calc_occupancy]
  · rw [show Combine.buildSummary [Samples.nrow50] =
      Combine.summarizeStep [] Samples.nrow50 from rfl,
      Combine.summarizeStep_lookup_movie]
    norm_num [Combine.occOf, Samples.nrow50, Combine.initMovieAcc, mapLookup]
  · rw [show Combine.buildSummary [Samples.nrow98] =
      Combine.summarizeStep [] Samples.nrow98 from rfl,
      Combine.summarizeStep_lookup_movie]
    norm_num [Combine.occOf, Samples.nrow98, Samples.nrow50, Combine.initMovieAcc,
      mapLookup]
  · rw [show Combine.buildSummary [Samples.nrow10] =
      Combine.summarizeStep [] Samples.nrow10 from rfl,
      Combine.summarizeStep_lookup_movie]
    norm_num [Combine.occOf, Samples.nrow10, Samples.nrow50, Combine.initMovieAcc,
      mapLookup]
  · intro s r
    rw [Combine.summarizeStep_lookup_movie]
    exact ⟨rfl, rfl, rfl, rfl, rfl, rfl⟩
  · intro s r
    rw [Combine.summarizeStep_lookup_city]
    simp [Combine.updDetail_eq]
  · intro s r
    rw [Combine.summarizeStep_lookup_lang]
    simp [Combine.updDetail_eq]
  · intro s r
    rw [Combine.summarizeStep_lookup_fmt]
    simp [Combine.updDetail_eq]

/-- C9: Gross and sold tier computation.  For every show payload, sold is
the sum over seat tiers of (tier seats − tier available) and gross is the
sum over tiers of (tier sold × tier price) — in bmsdaily7's tier loop and
in bmsdaily9's per-area gross; in particular the show with tier A
(total 50, avail 10, price 200) and tier B (total 30, avail 30, price 150)
parses to sold = 40 and gross = 8000. -/
theorem C9_gross_sold_tiers :
    (∀ cats : List Bms7.Category,
      (Bms7.tierFold cats).2.2.1 =
        (cats.map (fun c => c.MaxSeats - c.SeatsAvail)).sum ∧
      (Bms7.tierFold cats).2.2.2 =
        (cats.map (fun c => ((c.MaxSeats - c.SeatsAvail : ℤ) : ℚ) * c.CurPrice)).sum) ∧
    (∀ areas : List Bms9.AreaJ, Bms9.areasGross areas =
      (areas.map (fun a => ((a.sTotal - a.sAvail : ℤ) : ℚ) * a.price)).sum) ∧
    ((Bms7.parse_payload "20260101" Samples.payloadTwoTier).map
        (fun r => (r.sold, r.gross)) = [(40, 8000)]) := by
  refine ⟨?_, fun areas => rfl, ?_⟩
  · intro cats
    rw [Bms7.tierFold_spec]
    exact ⟨rfl, rfl⟩
  · have h : Bms7.parse_payload "20260101" Samples.payloadTwoTier =
        [Bms7.mkRecord
          { VenueName := "V1", VenueAdd := "Addr 1", VenueCompName := "PVR" }
          "Movie A" "2D" "HINDI"
          { ShowDateCode := "20260101", ShowTime := "08:00 PM",
            Attributes := "A1", SessionId := "101",
            Categories := [⟨50, 10, 200⟩, ⟨30, 30, 150⟩] }] := by
      rfl
    rw [h]
    simp only [List.map_cons, List.map_nil, Bms7.mkRecord]
    rw [Bms7.tierFold_spec]
    norm_num [roundTo, roundHalfEven]

/-- C7 counterexample: the claim that the unparseable-time sentinel lies
outside the cutoff filter's exclusion (so the record is kept) is false on
the code.  At the concrete record whose time is "TBA": the time does not
parse, `minutes_left` returns the 9999 sentinel, the sentinel fails the
`mins <= CUTOFF_MINUTES` test, and the collection loop drops the record
(the emitted list is empty). -/
theorem C7_counterexample :
    Bms7.parse12h Samples.recBadTime.time = none ∧
    Bms7.minutes_left 600 Samples.recBadTime.time = 9999 ∧
    ¬ (Bms7.minutes_left 600 Samples.recBadTime.time ≤ Bms7.CUTOFF_MINUTES) ∧
    Bms7.collectRows 600 "Mumbai" "Maharashtra" "20260101" [Samples.recBadTime] = [] := by
  have hp : Bms7.parse12h Samples.recBadTime.time = none := by decide
  have hm : Bms7.minutes_left 600 Samples.recBadTime.time = 9999 := by
    simp only [Bms7.minutes_left, hp]
  refine ⟨hp, hm, ?_, ?_⟩
  · rw [hm, Bms7.CUTOFF_MINUTES]
    norm_num
  · simp only [Bms7.collectRows, List.foldr, hm]
    rw [if_neg (by rw [Bms7.CUTOFF_MINUTES]; norm_num)]

/-- C7 amended: unparseable show times do not raise.  bmsdaily7's
`minutes_left` yields the very large sentinel 9999, which lies inside the
`CUTOFF_MINUTES` filter's exclusion (`mins <= 200` fails), so the record is
dropped by the collection loop — not kept.  bmsdaily9's `parse_showtime`
yields the empty-string sentinel for an unparseable time and the session's
record is still emitted (no cutoff is applied there). -/
theorem C7_amended_unparseable_time
    (nowMin : ℚ) (s : String) (r : ShowRecord) (city state dc : String)
    (hs : Bms7.parse12h s = none) (hr : Bms7.parse12h r.time = none)
    (ts : String) (hts1 : ts ≠ "") (hts2 : Bms9.isDigitStr ts = false)
    (hts3 : Bms9.parseISO ts = none) :
    Bms7.minutes_left nowMin s = 9999 ∧
    Bms7.collectRows nowMin city state dc [r] = [] ∧
    Bms9.parse_showtime (Bms9.TimeVal.str ts) = "" ∧
    (∀ (city2 state2 vn va dc2 : String) (movies : List Bms9.MovieJ)
        (sess : Bms9.SessionJ),
      (Bms9.parseSession city2 state2 vn va dc2 movies sess).elim True
        (fun rec => rec.time = Bms9.parse_showtime sess.showTime)) := by
  have hm : Bms7.minutes_left nowMin s = 9999 := by
    simp only [Bms7.minutes_left, hs]
  have hmr : Bms7.minutes_left nowMin r.time = 9999 := by
    simp only [Bms7.minutes_left, hr]
  refine ⟨hm, ?_, ?_, ?_⟩
  · simp only [Bms7.collectRows, List.foldr, hmr]
    rw [if_neg (by rw [Bms7.CUTOFF_MINUTES]; norm_num)]
  · rw [Bms9.parse_showtime, if_neg hts1, hts2]
    simp only [Bool.false_eq_true, if_false, hts3]
  · intro city2 state2 vn va dc2 movies sess
    unfold Bms9.parseSession
    cases movies.find? (fun m => decide (m.id = sess.mid)) with
    | none => exact trivial
    | some m => exact rfl

/-- Witness for the amended C7 at concrete inputs: the string "TBA" parses
under neither time format; the bmsdaily7 record carrying it is dropped by
the cutoff, and a District session carrying it is still emitted with the
empty-string sentinel. -/
theorem C7_amended_unparseable_time_witness :
    (Bms7.parse12h "TBA" = none ∧ Bms7.parse12h Samples.recBadTime.time = none ∧
      "TBA" ≠ "" ∧ Bms9.isDigitStr "TBA" = false ∧ Bms9.parseISO "TBA" = none) ∧
    (Bms7.minutes_left 600 "TBA" = 9999 ∧
      Bms7.collectRows 600 "Mumbai" "Maharashtra" "20260101" [Samples.recBadTime] = [] ∧
      Bms9.parse_showtime (Bms9.TimeVal.str "TBA") = "" ∧
      (∀ (city2 state2 vn va dc2 : String) (movies : List Bms9.MovieJ)
          (sess : Bms9.SessionJ),
        (Bms9.parseSession city2 state2 vn va dc2 movies sess).elim True
          (fun rec => rec.time = Bms9.parse_showtime sess.showTime))) :=
  ⟨⟨by decide, by decide, by decide, by decide, by decide⟩,
    C7_amended_unparseable_time 600 "TBA" Samples.recBadTime "Mumbai" "Maharashtra"
      "20260101" (by decide) (by decide) "TBA" (by decide) (by decide) (by decide)⟩

/-- C8 counterexample: negative seat values are neither clamped nor flagged.
A payload whose single tier reports 20 available out of 10 seats parses to a
record with sold = −10, and the movie-level summed aggregate over that
record is −10 < 0: the negative contribution flows into the aggregates
unchanged. -/
theorem C8_counterexample :
    ((Bms7.parse_payload "20260101" Samples.payloadNegative).map
      (fun r => r.sold) = [-10]) ∧
    ((mapLookup (Combine.buildSummary
          ((Bms7.parse_payload "20260101" Samples.payloadNegative).map
            (Combine.normalize_row "20260101")))
        "Movie N").getD Combine.initMovieAcc).sold = -10 ∧
    (-10 : ℤ) < 0 := by
  have hp : Bms7.parse_payload "20260101" Samples.payloadNegative =
      [Bms7.mkRecord ⟨"V1", "Addr 1", "PVR"⟩ "Movie N" "2D" "HINDI"
        ⟨"20260101", "08:00 PM", "A1", "101", [⟨10, 20, 100⟩]⟩] := rfl
  refine ⟨?_, ?_, by norm_num⟩
  · rw [hp]
    simp only [List.map_cons, List.map_nil, Bms7.mkRecord]
    rw [Bms7.tierFold_spec]
    norm_num
  · rw [hp]
    simp only [List.map_cons, List.map_nil]
    rw [show Combine.buildSummary
        [Combine.normalize_row "20260101"
          (Bms7.mkRecord ⟨"V1", "Addr 1", "PVR"⟩ "Movie N" "2D" "HINDI"
            ⟨"20260101", "08:00 PM", "A1", "101", [⟨10, 20, 100⟩]⟩)] =
      Combine.summarizeStep []
        (Combine.normalize_row "20260101"
          (Bms7.mkRecord ⟨"V1", "Addr 1", "PVR"⟩ "Movie N" "2D" "HINDI"
            ⟨"20260101", "08:00 PM", "A1", "101", [⟨10, 20, 100⟩]⟩)) from rfl]
    have hmv : (Combine.normalize_row "20260101"
        (Bms7.mkRecord ⟨"V1", "Addr 1", "PVR"⟩ "Movie N" "2D" "HINDI"
          ⟨"20260101", "08:00 PM", "A1", "101", [⟨10, 20, 100⟩]⟩)).movie =
        "Movie N" := rfl
    have hkey : mapLookup (Combine.summarizeStep []
        (Combine.normalize_row "20260101"
          (Bms7.mkRecord ⟨"V1", "Addr 1", "PVR"⟩ "Movie N" "2D" "HINDI"
            ⟨"20260101", "08:00 PM", "A1", "101", [⟨10, 20, 100⟩]⟩))) "Movie N" =
        mapLookup (Combine.summarizeStep []
        (Combine.normalize_row "20260101"
          (Bms7.mkRecord ⟨"V1", "Addr 1", "PVR"⟩ "Movie N" "2D" "HINDI"
            ⟨"20260101", "08:00 PM", "A1", "101", [⟨10, 20, 100⟩]⟩)))
          (Combine.normalize_row "20260101"
            (Bms7.mkRecord ⟨"V1", "Addr 1", "PVR"⟩ "Movie N" "2D" "HINDI"
              ⟨"20260101", "08:00 PM", "A1", "101", [⟨10, 20, 100⟩]⟩)).movie := by
      rw [hmv]
    rw [hkey, Combine.summarizeStep_lookup_movie]
    simp only [mapLookup, Option.getD_none, Combine.initMovieAcc]
    rw [show (Combine.normalize_row "20260101"
        (Bms7.mkRecord ⟨"V1", "Addr 1", "PVR"⟩ "Movie N" "2D" "HINDI"
          ⟨"20260101", "08:00 PM", "A1", "101", [⟨10, 20, 100⟩]⟩)).sold =
      (Bms7.tierFold [⟨10, 20, 100⟩]).2.2.1 from rfl, Bms7.tierFold_spec]
    norm_num

/-- C8 amended: `sold = total − available` holds per tier and for the
aggregate record in both parsers, but negative sold/available values are
neither clamped nor flagged — the summary accumulation adds the raw sold
and gross values, so negative contributions propagate into the summed
aggregates (as the counterexample shows at a concrete input). -/
theorem C8_amended_sold_identity_no_clamping :
    (∀ cats : List Bms7.Category,
      (Bms7.tierFold cats).2.2.1 =
        (Bms7.tierFold cats).1 - (Bms7.tierFold cats).2.1) ∧
    (∀ (vj : Bms7.VenueJ) (t d l : String) (sh : Bms7.ShowTimeJ),
      (Bms7.mkRecord vj t d l sh).sold =
        (Bms7.mkRecord vj t d l sh).totalSeats -
          (Bms7.mkRecord vj t d l sh).available) ∧
    (∀ (city state vn va dc : String) (movies : List Bms9.MovieJ)
        (s : Bms9.SessionJ),
      (Bms9.parseSession city state vn va dc movies s).elim True
        (fun r => r.sold = r.totalSeats - r.available)) ∧
    (∀ (s : List (String × Combine.MovieAcc)) (r : Combine.NRow),
      ((mapLookup (Combine.summarizeStep s r) r.movie).getD
          Combine.initMovieAcc).sold =
        ((mapLookup s r.movie).getD Combine.initMovieAcc).sold + r.sold ∧
      ((mapLookup (Combine.summarizeStep s r) r.movie).getD
          Combine.initMovieAcc).gross =
        ((mapLookup s r.movie).getD Combine.initMovieAcc).gross + r.gross) := by
  refine ⟨?_, ?_, ?_, ?_⟩
  · intro cats
    rw [Bms7.tierFold_spec]
    exact Bms7.sum_map_sub_cats cats
  · intro vj t d l sh
    simp only [Bms7.mkRecord]
    rw [Bms7.tierFold_spec]
    exact Bms7.sum_map_sub_cats sh.Categories
  · intro city state vn va dc movies s
    unfold Bms9.parseSession
    cases movies.find? (fun m => decide (m.id = s.mid)) with
    | none => exact trivial
    | some m => exact rfl
  · intro s r
    rw [Combine.summarizeStep_lookup_movie]
    exact ⟨rfl, rfl⟩

/-- C5: Case-insensitive city grouping.  For any two raw rows of the same
movie whose raw city and state strings agree after trimming and
lower-casing (in particular, whenever they differ only in letter case and
surrounding whitespace), the combiner's aggregation puts them into a single
`City_details` bucket whose grouping key is the trimmed lower-cased form:
the final summary holds one movie entry, its `City_details` list has exactly
one bucket, with combined shows (2) and combined venue set, displayed under
the trimmed title-cased city/state. -/
theorem C5_city_grouping (dc : String) (a b : ShowRecord)
    (hmov : Combine.orDefault a.movie "Unknown" =
      Combine.orDefault b.movie "Unknown")
    (hcity : pyLower (pyStrip (Combine.orDefault a.city "Unknown")) =
      pyLower (pyStrip (Combine.orDefault b.city "Unknown")))
    (hstate : pyLower (pyStrip (Combine.orDefault a.state "Unknown")) =
      pyLower (pyStrip (Combine.orDefault b.state "Unknown"))) :
    ((Combine.final_summary
        [Combine.normalize_row dc a, Combine.normalize_row dc b]).map
      (fun kv => kv.1) = [Combine.orDefault a.movie "Unknown"]) ∧
    (((mapLookup (Combine.final_summary
          [Combine.normalize_row dc a, Combine.normalize_row dc b])
        (Combine.orDefault a.movie "Unknown")).getD
          (Combine.finalizeMovie Combine.initMovieAcc)).cityDetails.map
        (fun c => (c.city, c.state, c.shows, c.venues)) =
      [(pyTitle (pyStrip (Combine.orDefault a.city "Unknown")),
        pyTitle (pyStrip (Combine.orDefault a.state "Unknown")), 2,
        (Combine.setAdd (Combine.setAdd [] (Combine.normalize_row dc a).venue)
          (Combine.normalize_row dc b).venue).length)]) := by
  have hm : (Combine.normalize_row dc a).movie =
      (Combine.normalize_row dc b).movie := hmov
  have hck : ((Combine.normalize_row dc a).cityKey,
      (Combine.normalize_row dc a).stateKey) =
      ((Combine.normalize_row dc b).cityKey,
        (Combine.normalize_row dc b).stateKey) :=
    congrArg₂ Prod.mk hcity hstate
  obtain ⟨M1, hM1⟩ :=
    Combine.summarizeStep_is_insert [] (Combine.normalize_row dc a)
  have hs1 : Combine.summarizeStep [] (Combine.normalize_row dc a) =
      [((Combine.normalize_row dc a).movie, M1)] := by
    rw [hM1]
    rfl
  have hM1city : M1.cityDetails =
      [(((Combine.normalize_row dc a).cityKey,
          (Combine.normalize_row dc a).stateKey),
        { city := (Combine.normalize_row dc a).city,
          state := (Combine.normalize_row dc a).state,
          d := Combine.updDetail Combine.initDetailAcc
            (Combine.normalize_row dc a).venue (Combine.normalize_row dc a).gross
            (Combine.normalize_row dc a).sold
            (Combine.normalize_row dc a).totalSeats
            (Combine.occOf (Combine.normalize_row dc a).sold
              (Combine.normalize_row dc a).totalSeats) })] := by
    have h := Combine.summarizeStep_lookup_movie [] (Combine.normalize_row dc a)
    rw [hM1, mapLookup_mapInsert_self, Option.getD_some] at h
    rw [h]
    rfl
  obtain ⟨M2, hM2⟩ := Combine.summarizeStep_is_insert
    (Combine.summarizeStep [] (Combine.normalize_row dc a))
    (Combine.normalize_row dc b)
  have hs2 : Combine.summarizeStep
      (Combine.summarizeStep [] (Combine.normalize_row dc a))
      (Combine.normalize_row dc b) =
      [((Combine.normalize_row dc b).movie, M2)] := by
    rw [hM2, hs1, mapInsert_singleton_eq _ _ _ _ hm]
  have hM2city : M2.cityDetails =
      [(((Combine.normalize_row dc b).cityKey,
          (Combine.normalize_row dc b).stateKey),
        { city := (Combine.normalize_row dc a).city,
          state := (Combine.normalize_row dc a).state,
          d := Combine.updDetail
            (Combine.updDetail Combine.initDetailAcc
              (Combine.normalize_row dc a).venue
              (Combine.normalize_row dc a).gross
              (Combine.normalize_row dc a).sold
              (Combine.normalize_row dc a).totalSeats
              (Combine.occOf (Combine.normalize_row dc a).sold
                (Combine.normalize_row dc a).totalSeats))
            (Combine.normalize_row dc b).venue (Combine.normalize_row dc b).gross
            (Combine.normalize_row dc b).sold
            (Combine.normalize_row dc b).totalSeats
            (Combine.occOf (Combine.normalize_row dc b).sold
              (Combine.normalize_row dc b).totalSeats) })] := by
    have h := Combine.summarizeStep_lookup_movie
      (Combine.summarizeStep [] (Combine.normalize_row dc a))
      (Combine.normalize_row dc b)
    rw [hM2, mapLookup_mapInsert_self, Option.getD_some, hs1,
      mapLookup_singleton_eq _ _ M1 hm, Option.getD_some] at h
    rw [h]
    dsimp only
    rw [hM1city, mapLookup_singleton_eq _ _ _ hck, Option.getD_some,
      mapInsert_singleton_eq _ _ _ _ hck]
  refine ⟨?_, ?_⟩
  · show ((Combine.summarizeStep
        (Combine.summarizeStep [] (Combine.normalize_row dc a))
        (Combine.normalize_row dc b)).map
      (fun kv => (kv.1, Combine.finalizeMovie kv.2))).map (fun kv => kv.1) = _
    rw [hs2]
    simp only [List.map_cons, List.map_nil]
    rw [show (Combine.normalize_row dc b).movie =
      Combine.orDefault b.movie "Unknown" from rfl, ← hmov]
  · show (((mapLookup ((Combine.summarizeStep
        (Combine.summarizeStep [] (Combine.normalize_row dc a))
        (Combine.normalize_row dc b)).map
          (fun kv => (kv.1, Combine.finalizeMovie kv.2)))
        (Combine.orDefault a.movie "Unknown")).getD
          (Combine.finalizeMovie Combine.initMovieAcc)).cityDetails).map
        (fun c => (c.city, c.state, c.shows, c.venues)) = _
    rw [hs2]
    simp only [List.map_cons, List.map_nil]
    rw [mapLookup_singleton_eq _ _ _
      (show (Combine.normalize_row dc b).movie =
        Combine.orDefault a.movie "Unknown" from hmov.symm), Option.getD_some]
    simp only [Combine.finalizeMovie]
    rw [hM2city]
    simp only [List.map_cons, List.map_nil, Combine.finalizeCity,
      Combine.updDetail_eq]
    simp [Combine.normalize_row, Combine.initDetailAcc]

/-- Witness for C5 at the concrete pair city="Mumbai" / city="MUMBAI "
(trailing space, different case): one City_details bucket, 2 shows, 2
venues, displayed as "Mumbai". -/
theorem C5_city_grouping_witness :
    (Combine.orDefault Samples.rawMumbai1.movie "Unknown" =
        Combine.orDefault Samples.rawMumbai2.movie "Unknown" ∧
      pyLower (pyStrip (Combine.orDefault Samples.rawMumbai1.city "Unknown")) =
        pyLower (pyStrip (Combine.orDefault Samples.rawMumbai2.city "Unknown")) ∧
      pyLower (pyStrip (Combine.orDefault Samples.rawMumbai1.state "Unknown")) =
        pyLower (pyStrip (Combine.orDefault Samples.rawMumbai2.state "Unknown"))) ∧
    pyTitle (pyStrip (Combine.orDefault Samples.rawMumbai1.city "Unknown")) =
      "Mumbai" ∧
    (((Combine.final_summary
        [Combine.normalize_row "20260101" Samples.rawMumbai1,
          Combine.normalize_row "20260101" Samples.rawMumbai2]).map
      (fun kv => kv.1) = [Combine.orDefault Samples.rawMumbai1.movie "Unknown"]) ∧
    (((mapLookup (Combine.final_summary
          [Combine.normalize_row "20260101" Samples.rawMumbai1,
            Combine.normalize_row "20260101" Samples.rawMumbai2])
        (Combine.orDefault Samples.rawMumbai1.movie "Unknown")).getD
          (Combine.finalizeMovie Combine.initMovieAcc)).cityDetails.map
        (fun c => (c.city, c.state, c.shows, c.venues)) =
      [(pyTitle (pyStrip (Combine.orDefault Samples.rawMumbai1.city "Unknown")),
        pyTitle (pyStrip (Combine.orDefault Samples.rawMumbai1.state "Unknown")), 2,
        (Combine.setAdd (Combine.setAdd []
            (Combine.normalize_row "20260101" Samples.rawMumbai1).venue)
          (Combine.normalize_row "20260101" Samples.rawMumbai2).venue).length)])) :=
  ⟨⟨by decide, by decide, by decide⟩, by decide,
    C5_city_grouping "20260101" Samples.rawMumbai1 Samples.rawMumbai2
      (by decide) (by decide) (by decide)⟩

end DBO
